import Mathlib

/-
Verification development for the AI Generation Gateway of the mansa-job-backend
repository. The definitions below are a shallow embedding of
src/ai_services/gemini_service.py and src/ai_services/views.py (plus the data
declarations they use from src/ai_services/models.py, serializers.py and
src/jobs/models.py). Python strings are Lean Strings, Python dict/list/JSON
values are the Json inductive below, raised exceptions are Except errors, and
the Django cache / ORM side effects are threaded through an explicit state.
-/

set_option maxRecDepth 10000

/-! Python string primitives used by the gateway code. -/

/-- Whitespace characters stripped by Python str.strip() (ASCII subset). -/
def isPyWs (c : Char) : Bool :=
  c == ' ' || c == '\t' || c == '\n' || c == '\r' || c == '\x0b' || c == '\x0c'

/-- Model of Python str.strip() on the character list level. -/
def stripL (l : List Char) : List Char :=
  ((l.dropWhile isPyWs).reverse.dropWhile isPyWs).reverse

/-- Model of Python str.strip(). -/
def pyStrip (s : String) : String :=
  String.mk (stripL s.toList)

/-- Auxiliary scan for Python str.find: first index at or after i where the
needle occurs. -/
def strFindAux (needle : List Char) : List Char → Nat → Option Nat
  | [], i => if needle.isEmpty then some i else none
  | c :: rest, i =>
    if needle.isPrefixOf (c :: rest) then some i
    else strFindAux needle rest (i + 1)

/-- Model of Python hay.find(needle, start): index of the first occurrence at
or after start, or -1. -/
def pyFind (hay needle : String) (start : Nat) : Int :=
  match strFindAux needle.toList (hay.toList.drop start) start with
  | some i => Int.ofNat i
  | none => -1

/-- Model of the Python `needle in hay` substring test. -/
def pyContains (hay needle : String) : Bool :=
  pyFind hay needle 0 != -1

/-- Model of Python s.startswith(pre). -/
def pyStartsWith (s pre : String) : Bool :=
  pre.toList.isPrefixOf s.toList

/-- Auxiliary scan returning the last index at which character c occurs. -/
def lastIdxAux (c : Char) : List Char → Nat → Option Nat → Option Nat
  | [], _, acc => acc
  | x :: rest, i, acc => lastIdxAux c rest (i + 1) (if x == c then some i else acc)

/-- Model of Python s.rfind(c) for a single-character needle (the only form
the gateway uses): last index of c, or -1. -/
def pyRFindChar (s : String) (c : Char) : Int :=
  match lastIdxAux c s.toList 0 none with
  | some i => Int.ofNat i
  | none => -1

/-- Model of the Python slice s[a:b] with Python index normalization
(negative indices count from the end, out-of-range indices clamp). -/
def pySlice (s : String) (a b : Int) : String :=
  let n : Int := Int.ofNat s.toList.length
  let norm : Int → Nat := fun i => if i < 0 then (max (n + i) 0).toNat else min i.toNat s.toList.length
  String.mk ((s.toList.take (norm b)).drop (norm a))

/-- Auxiliary for Python str.split() with no separator: split on runs of
whitespace, discarding empty pieces. -/
def splitWsAux : List Char → List Char → List String
  | [], cur => if cur.isEmpty then [] else [String.mk cur.reverse]
  | c :: rest, cur =>
    if isPyWs c then
      if cur.isEmpty then splitWsAux rest []
      else String.mk cur.reverse :: splitWsAux rest []
    else splitWsAux rest (c :: cur)

/-- Model of Python s.split() (no arguments). -/
def pySplit (s : String) : List String :=
  splitWsAux s.toList []

/-- Model of Python sep.join(parts) for a list of strings. -/
def joinSep (sep : String) : List String → String
  | [] => ""
  | [x] => x
  | x :: y :: xs => x ++ sep ++ joinSep sep (y :: xs)

/-! The JSON / Python value domain. -/

/-- JSON values as produced by json.loads, doubling as the Python values the
gateway stores in the Django cache and returns from handlers. Numbers are
modelled as integers only: no gateway input in scope uses float literals, and
the parser below rejects them rather than mismodelling them. Python dicts are
insertion-ordered association lists, as in CPython. -/
inductive Json where
  | null : Json
  | bool : Bool → Json
  | int : Int → Json
  | str : String → Json
  | arr : List Json → Json
  | obj : List (String × Json) → Json

mutual

/-- Structural boolean equality on Json values (Python ==). -/
def Json.beq : Json → Json → Bool
  | .null, .null => true
  | .bool a, .bool b => a == b
  | .int a, .int b => a == b
  | .str a, .str b => a == b
  | .arr xs, .arr ys => Json.beqList xs ys
  | .obj xs, .obj ys => Json.beqObj xs ys
  | _, _ => false

/-- Elementwise equality of Json lists. -/
def Json.beqList : List Json → List Json → Bool
  | [], [] => true
  | x :: xs, y :: ys => Json.beq x y && Json.beqList xs ys
  | _, _ => false

/-- Fieldwise equality of Json objects. -/
def Json.beqObj : List (String × Json) → List (String × Json) → Bool
  | [], [] => true
  | (k, v) :: xs, (l, w) :: ys => k == l && Json.beq v w && Json.beqObj xs ys
  | _, _ => false

end

instance : BEq Json := ⟨Json.beq⟩

/-- Python truthiness of a value (`if x:`): None, False, 0, empty string,
empty list and empty dict are falsy. -/
def isTruthy : Json → Bool
  | .null => false
  | .bool b => b
  | .int n => n != 0
  | .str s => s != ""
  | .arr xs => !xs.isEmpty
  | .obj fs => !fs.isEmpty

/-- Truthiness of `cache.get(key)`: Django returns None on a miss and `if
cached_result:` treats None like any other falsy value. -/
def optTruthy : Option Json → Bool
  | some v => isTruthy v
  | none => false

/-- Insert into a Python dict: an existing key keeps its position and gets the
new value, a fresh key is appended (CPython insertion-order semantics). -/
def objInsert : List (String × Json) → String → Json → List (String × Json)
  | [], k, v => [(k, v)]
  | (k', v') :: rest, k, v =>
    if k' == k then (k', v) :: rest else (k', v') :: objInsert rest k v

/-! A recursive-descent model of json.loads. It implements the strict JSON
grammar Python's json module accepts on the inputs in scope: ws-separated
values, double-quoted strings with the simple escapes, integers with the
leading-zero rule, arrays and objects. Restrictions (documented, irrelevant to
every claim): float literals and \u escapes are rejected instead of parsed. -/

/-- JSON whitespace accepted between tokens by json.loads. -/
def jsonWsB (c : Char) : Bool :=
  c == ' ' || c == '\t' || c == '\n' || c == '\r'

/-- The open-brace character, kept out of string literals. -/
def braceOpen : Char := Char.ofNat 123

/-- The close-brace character. -/
def braceClose : Char := Char.ofNat 125

/-- The double-quote character. -/
def quoteChar : Char := Char.ofNat 34

/-- Scan of a JSON string body after the opening quote; raw control
characters are invalid, as in Python's json module. -/
def parseStrAux : List Char → List Char → Option (String × List Char)
  | [], _ => none
  | c :: rest, acc =>
    if c == quoteChar then some (String.mk acc.reverse, rest)
    else if c == '\\' then
      match rest with
      | [] => none
      | e :: rest' =>
        let dec : Option Char :=
          if e == quoteChar then some quoteChar
          else if e == '\\' then some '\\'
          else if e == '/' then some '/'
          else if e == 'n' then some '\n'
          else if e == 't' then some '\t'
          else if e == 'r' then some '\r'
          else if e == 'b' then some (Char.ofNat 8)
          else if e == 'f' then some (Char.ofNat 12)
          else none
        match dec with
        | some d => parseStrAux rest' (d :: acc)
        | none => none
    else if c.toNat < 32 then none
    else parseStrAux rest (c :: acc)

/-- Digit run of a JSON integer, with the JSON leading-zero rule: a leading
zero is a complete number on its own. -/
def parseDigits : List Char → Option (Nat × List Char)
  | [] => none
  | c :: rest =>
    if c == '0' then some (0, rest)
    else if c.isDigit then
      some ((c :: rest.takeWhile Char.isDigit).foldl
              (fun a d => a * 10 + (d.toNat - 48)) 0,
            rest.dropWhile Char.isDigit)
    else none

/-- Number token: optional minus then digits; a fraction or exponent marker is
outside the integer-only model and makes the parse fail. -/
def parseNumber (l : List Char) : Option (Json × List Char) :=
  let core : List Char → Bool → Option (Json × List Char) := fun l neg =>
    match parseDigits l with
    | some (n, rest) =>
      match rest with
      | d :: _ =>
        if d == '.' || d == 'e' || d == 'E' then none
        else some (.int (if neg then -(Int.ofNat n) else Int.ofNat n), rest)
      | [] => some (.int (if neg then -(Int.ofNat n) else Int.ofNat n), rest)
    | none => none
  match l with
  | '-' :: rest => core rest true
  | _ => core l false

mutual

/-- Fueled JSON value parser; fuel strictly decreases on every nested call and
jsonLoads supplies more fuel than any input can consume. -/
def parseVal : Nat → List Char → Option (Json × List Char)
  | 0, _ => none
  | _, [] => none
  | fuel + 1, c :: rest =>
    if c == 'n' then
      if rest.take 3 == ['u', 'l', 'l'] then some (.null, rest.drop 3) else none
    else if c == 't' then
      if rest.take 3 == ['r', 'u', 'e'] then some (.bool true, rest.drop 3) else none
    else if c == 'f' then
      if rest.take 4 == ['a', 'l', 's', 'e'] then some (.bool false, rest.drop 4) else none
    else if c == quoteChar then
      match parseStrAux rest [] with
      | some (s, r) => some (.str s, r)
      | none => none
    else if c == '[' then
      match rest.dropWhile jsonWsB with
      | ']' :: r => some (.arr [], r)
      | r => parseArrLoop fuel r []
    else if c == braceOpen then
      match rest.dropWhile jsonWsB with
      | d :: r =>
        if d == braceClose then some (.obj [], r)
        else parseObjLoop fuel (d :: r) []
      | [] => none
    else parseNumber (c :: rest)

/-- Comma-separated array elements up to the closing bracket. -/
def parseArrLoop : Nat → List Char → List Json → Option (Json × List Char)
  | 0, _, _ => none
  | fuel + 1, l, acc =>
    match parseVal fuel l with
    | some (v, r) =>
      match r.dropWhile jsonWsB with
      | ',' :: r2 => parseArrLoop fuel (r2.dropWhile jsonWsB) (acc ++ [v])
      | ']' :: r2 => some (.arr (acc ++ [v]), r2)
      | _ => none
    | none => none

/-- Comma-separated object members up to the closing brace; duplicate keys
overwrite, as in Python. -/
def parseObjLoop : Nat → List Char → List (String × Json) → Option (Json × List Char)
  | 0, _, _ => none
  | fuel + 1, l, acc =>
    match l with
    | c :: r =>
      if c == quoteChar then
        match parseStrAux r [] with
        | some (k, r1) =>
          match r1.dropWhile jsonWsB with
          | ':' :: r2 =>
            match parseVal fuel (r2.dropWhile jsonWsB) with
            | some (v, r3) =>
              match r3.dropWhile jsonWsB with
              | ',' :: r4 => parseObjLoop fuel (r4.dropWhile jsonWsB) (objInsert acc k v)
              | d :: r4 =>
                if d == braceClose then some (.obj (objInsert acc k v), r4) else none
              | [] => none
            | none => none
          | _ => none
        | none => none
      else none
    | [] => none

end

/-- Model of json.loads: a single JSON value with only whitespace around it;
anything else (including trailing data) is a parse failure, i.e. none. -/
def jsonLoads (s : String) : Option Json :=
  let l := s.toList.dropWhile jsonWsB
  match parseVal (2 * l.length + 8) l with
  | some (v, rest) => if (rest.dropWhile jsonWsB).isEmpty then some v else none
  | none => none

/-! The response extractor: `_extract_json` of gemini_service.py. -/

/-- Model of _extract_json: peel a markdown fence if one is present, truncate
after the last close marker when the remaining text starts with an object or
array open marker, then json.loads; any parse failure becomes none. -/
def extract_json (text0 : String) : Option Json :=
  let text1 :=
    if pyContains text0 "```json" then
      let s := pyFind text0 "```json" 0 + 7
      pyStrip (pySlice text0 s (pyFind text0 "```" s.toNat))
    else if pyContains text0 "```" then
      let s := pyFind text0 "```" 0 + 3
      pyStrip (pySlice text0 s (pyFind text0 "```" s.toNat))
    else text0
  let text2 :=
    if pyStartsWith text1 "\x7b" then pySlice text1 0 (pyRFindChar text1 braceClose + 1)
    else if pyStartsWith text1 "[" then pySlice text1 0 (pyRFindChar text1 ']' + 1)
    else text1
  jsonLoads text2

/-! Python repr/str of values, needed because the gateway builds cache keys
from hash(str(...)) of dicts and lists. -/

/-- The single-quote character. -/
def aposChar : Char := Char.ofNat 39

/-- Python repr of a str: single-quoted, switching to double quotes when the
string holds a single quote and no double quote. Escaping of embedded quotes
or backslashes is outside the model (no input in scope has them). -/
def pyReprStr (s : String) : String :=
  if s.toList.contains aposChar && !(s.toList.contains quoteChar) then
    String.mk [quoteChar] ++ s ++ String.mk [quoteChar]
  else
    String.mk [aposChar] ++ s ++ String.mk [aposChar]

mutual

/-- Python repr of a value: None/True/False, decimal integers, quoted
strings, bracketed lists and insertion-ordered dicts. -/
def pyRepr : Json → String
  | .null => "None"
  | .bool b => if b then "True" else "False"
  | .int n => toString n
  | .str s => pyReprStr s
  | .arr xs => "[" ++ joinSep ", " (pyReprList xs) ++ "]"
  | .obj fs => "\x7b" ++ joinSep ", " (pyReprObj fs) ++ "\x7d"

/-- Reprs of list elements. -/
def pyReprList : List Json → List String
  | [] => []
  | x :: xs => pyRepr x :: pyReprList xs

/-- Reprs of dict entries, key: value. -/
def pyReprObj : List (String × Json) → List String
  | [] => []
  | (k, v) :: xs => (pyReprStr k ++ ": " ++ pyRepr v) :: pyReprObj xs

end

/-- Python str() of a value: a str renders bare, everything else as repr
(str of a dict or list is its repr in Python). -/
def pyStr : Json → String
  | .str s => s
  | .null => pyRepr .null
  | .bool b => pyRepr (.bool b)
  | .int n => pyRepr (.int n)
  | .arr xs => pyRepr (.arr xs)
  | .obj fs => pyRepr (.obj fs)

/-- Model of CPython hash() on str. CPython hashes str with siphash13 keyed
by a per-process random salt (PYTHONHASHSEED); what matters to the gateway is
only that the result is a deterministic function of (process salt, string
contents), so the mixing is modelled by a simple seeded polynomial over the
code points, reduced mod 2^64. The empty string hashes to 0 in CPython
independent of the salt, which the model preserves. -/
def pyHash (seed : Nat) (s : String) : Nat :=
  if s == "" then 0
  else s.toList.foldl (fun a c => (a * 1000003 + c.toNat + 1) % 18446744073709551616)
         (seed % 18446744073709551616)

/-! Exceptions, usage records and the threaded gateway state. -/

/-- Python exceptions the gateway raises or propagates, carrying str(e). -/
inductive PyErr where
  | valueError : String → PyErr
  | typeError : String → PyErr
  | attributeError : String → PyErr
  | genericError : String → PyErr
deriving DecidableEq

/-- The str(e) detail text of an exception. -/
def errStr : PyErr → String
  | .valueError m => m
  | .typeError m => m
  | .attributeError m => m
  | .genericError m => m

/-- An AIUsageLog row as created by log_ai_usage in views.py. -/
structure UsageRecord where
  user : Nat
  service_type : String
  success : Bool
  error_message : Option String
deriving DecidableEq

/-- A Job row per jobs/models.py (the fields the model actually declares). -/
structure JobRec where
  title : String
  location : String
  is_remote : Bool
  job_type : String
  salary_range : String
  description : String
  requirements : String
  skills : Json
  is_active : Bool

/-- Fixed per-process environment: the generation provider (none models a
raised provider exception), the process hash salt, and the Job table. -/
structure Env where
  provider : String → Option String
  seed : Nat
  jobs : List (Int × JobRec)

/-- Mutable state threaded through an invocation: the Django cache (key,
value, ttl), the log of cache puts performed (key, value, ttl, in order), the
number of provider calls issued, and the persisted rows the views create. -/
structure St where
  cache : List (String × Json × Nat)
  puts : List (String × Json × Nat)
  providerCalls : Nat
  usageLogs : List UsageRecord
  parsedResumes : List (Nat × String × Json)
  jobMatches : List ((Nat × Int) × Json × Json)

/-- Cache lookup (Django cache.get, None on a miss). -/
def cacheGet (c : List (String × Json × Nat)) (k : String) : Option Json :=
  match c.find? (fun e => e.1 == k) with
  | some e => some e.2.1
  | none => none

/-- Cache store (Django cache.set): overwrites the key and records the put. -/
def cacheSetSt (st : St) (k : String) (v : Json) (ttl : Nat) : St :=
  { st with
    cache := (k, v, ttl) :: st.cache.filter (fun e => !(e.1 == k)),
    puts := st.puts ++ [(k, v, ttl)] }

/-- The guard `cached_result = cache.get(key); if cached_result:` — a hit is
served only when the stored value is truthy. -/
def cachedHit (o : Option Json) : Option Json :=
  match o with
  | some v => if isTruthy v then some v else none
  | none => none

/-- Cache timeout for dynamic content, gemini_service.py line 33. -/
def CACHE_TIMEOUT_SHORT : Nat := 3600

/-- Cache timeout for static content, gemini_service.py line 34. -/
def CACHE_TIMEOUT_LONG : Nat := 86400

/-! Cache keys, exactly as interpolated in gemini_service.py. -/

/-- Key of parse_resume: resume_parse_{hash(resume_text)}. -/
def resumeKey (seed : Nat) (t : String) : String :=
  "resume_parse_" ++ toString (pyHash seed t)

/-- Key of calculate_job_match: job_match_{hash(str(c))}_{hash(str(j))}. -/
def jobMatchKey (seed : Nat) (c j : Json) : String :=
  "job_match_" ++ toString (pyHash seed (pyStr c)) ++ "_" ++ toString (pyHash seed (pyStr j))

/-- Key of generate_job_description: job_desc_{hash(str(job_info))}. -/
def jobDescKey (seed : Nat) (info : Json) : String :=
  "job_desc_" ++ toString (pyHash seed (pyStr info))

/-- Key of parse_search_query: search_parse_{hash(query)}. -/
def searchKey (seed : Nat) (q : String) : String :=
  "search_parse_" ++ toString (pyHash seed q)

/-- Key of generate_interview_questions:
interview_{hash(role)}_{hash(str(skills))}_{experience_level}. -/
def interviewKey (seed : Nat) (role : String) (skills : List String) (lvl : String) : String :=
  "interview_" ++ toString (pyHash seed role) ++ "_"
    ++ toString (pyHash seed (pyStr (.arr (skills.map .str)))) ++ "_" ++ lvl

/-- Key of get_salary_insights:
salary_{hash(role)}_{hash(location)}_{experience_level}. -/
def salaryKey (seed : Nat) (role loc lvl : String) : String :=
  "salary_" ++ toString (pyHash seed role) ++ "_" ++ toString (pyHash seed loc) ++ "_" ++ lvl

/-! Python dict/iteration helpers the handlers use. -/

/-- Python d.get(k) — AttributeError when the receiver is not a dict. -/
def pyDictGet (d : Json) (k : String) : Except PyErr (Option Json) :=
  match d with
  | .obj fs => .ok ((fs.find? (fun e => e.1 == k)).map (fun e => e.2))
  | _ => .error (.attributeError "object has no attribute get")

/-- Python d.get(k, default). -/
def pyDictGetD (d : Json) (k : String) (dflt : Json) : Except PyErr Json :=
  match pyDictGet d k with
  | .ok (some v) => .ok v
  | .ok none => .ok dflt
  | .error e => .error e

/-- Python `f in v` for dicts (key test), lists (element equality) and
strings (substring); TypeError otherwise. -/
def pyIn (f : String) (v : Json) : Except PyErr Bool :=
  match v with
  | .obj fs => .ok (fs.any (fun e => e.1 == f))
  | .arr xs => .ok (xs.any (fun x => x == Json.str f))
  | .str s => .ok (pyContains s f)
  | _ => .error (.typeError "argument is not iterable")

/-- Python v[f] = x — TypeError when the receiver is not a dict. -/
def pySetItem (v : Json) (f : String) (x : Json) : Except PyErr Json :=
  match v with
  | .obj fs => .ok (.obj (objInsert fs f x))
  | _ => .error (.typeError "object does not support item assignment")

/-- One step of the defaulting loops: `if field not in d: d[field] = dflt`. -/
def defaultField (f : String) (dflt : Json) (d : Json) : Except PyErr Json :=
  match pyIn f d with
  | .error e => .error e
  | .ok b => if b then .ok d else pySetItem d f dflt

/-- The parse_resume required-field loop over name, email, skills. -/
def normalizeResume (d : Json) : Except PyErr Json :=
  match defaultField "name" (.str "") d with
  | .error e => .error e
  | .ok d1 =>
    match defaultField "email" (.str "") d1 with
    | .error e => .error e
    | .ok d2 => defaultField "skills" (.arr []) d2

/-- The calculate_job_match matchScore defaulting step. -/
def normalizeJobMatch (d : Json) : Except PyErr Json :=
  defaultField "matchScore" (.int 50) d

/-- Collect a list of Json strs, or nothing if an element is not a str. -/
def allStrs : List Json → Option (List String)
  | [] => some []
  | .str s :: rest => (allStrs rest).map (fun l => s :: l)
  | _ => none

/-- Python sep.join(v): joins a list of strs, the characters of a str, or
the keys of a dict; TypeError on non-str elements or non-iterables. -/
def pyJoinJson (sep : String) (v : Json) : Except PyErr String :=
  match v with
  | .arr xs =>
    match allStrs xs with
    | some l => .ok (joinSep sep l)
    | none => .error (.typeError "sequence item: expected str instance")
  | .str s => .ok (joinSep sep (s.toList.map (fun c => String.mk [c])))
  | .obj fs => .ok (joinSep sep (fs.map (fun e => e.1)))
  | _ => .error (.typeError "can only join an iterable")

/-! Prompt templates, transcribed from the f-strings in gemini_service.py. -/

/-- Expected-shape block of the resume prompt. -/
def resumeShape : String := joinSep "\n"
  ["\x7b",
   "  \"name\": \"Full Name\",",
   "  \"email\": \"email@example.com\",",
   "  \"phone\": \"+1234567890\",",
   "  \"location\": \"City, Country\",",
   "  \"headline\": \"Professional Title\",",
   "  \"summary\": \"Brief professional summary\",",
   "  \"skills\": [\"skill1\", \"skill2\"],",
   "  \"experience\": [",
   "    \x7b",
   "      \"company\": \"Company Name\",",
   "      \"role\": \"Job Title\",",
   "      \"startDate\": \"2020-01\",",
   "      \"endDate\": \"2023-12\",",
   "      \"description\": \"Job description\"",
   "    \x7d",
   "  ],",
   "  \"education\": [",
   "    \x7b",
   "      \"institution\": \"University Name\",",
   "      \"degree\": \"Degree Name\",",
   "      \"field\": \"Field of Study\",",
   "      \"year\": \"2020\"",
   "    \x7d",
   "  ]",
   "\x7d"]

/-- The parse_resume prompt. -/
def resumePrompt (resume_text : String) : String :=
  "Parse the following resume and extract structured data. Return ONLY valid JSON with no markdown formatting.\n\nResume:\n"
    ++ resume_text ++ "\n\nReturn JSON in this exact format:\n" ++ resumeShape

/-- Expected-shape block of the job-match prompt. -/
def jobMatchShape : String := joinSep "\n"
  ["\x7b",
   "  \"matchScore\": 85,",
   "  \"skillsMatch\": [\"matched skill 1\", \"matched skill 2\"],",
   "  \"missingSkills\": [\"missing skill 1\"],",
   "  \"recommendation\": \"Brief recommendation\",",
   "  \"strengths\": [\"strength 1\", \"strength 2\"],",
   "  \"gaps\": [\"gap 1\"]",
   "\x7d"]

/-- The calculate_job_match prompt; joining a skills value that is not a list
of strings raises, as in Python. -/
def jobMatchPrompt (c j : Json) : Except PyErr String := do
  let cSkills ← pyDictGetD c "skills" (.arr [])
  let cs ← pyJoinJson ", " cSkills
  let yexp ← pyDictGetD c "yearsExperience" (.int 0)
  let cloc ← pyDictGetD c "location" (.str "Not specified")
  let csal ← pyDictGetD c "desiredSalary" (.str "Not specified")
  let jtitle ← pyDictGetD j "title" (.str "Not specified")
  let jSkills ← pyDictGetD j "skills" (.arr [])
  let js ← pyJoinJson ", " jSkills
  let jexp ← pyDictGetD j "experienceLevel" (.str "Not specified")
  let jloc ← pyDictGetD j "location" (.str "Not specified")
  let jsal ← pyDictGetD j "salaryRange" (.str "Not specified")
  pure ("Analyze the match between this candidate and job. Return ONLY valid JSON.\n\nCANDIDATE:\nSkills: "
    ++ cs ++ "\nExperience: " ++ pyStr yexp ++ " years\nLocation: " ++ pyStr cloc
    ++ "\nDesired Salary: " ++ pyStr csal ++ "\n\nJOB REQUIREMENTS:\nTitle: " ++ pyStr jtitle
    ++ "\nRequired Skills: " ++ js ++ "\nExperience: " ++ pyStr jexp ++ "\nLocation: " ++ pyStr jloc
    ++ "\nSalary Range: " ++ pyStr jsal ++ "\n\nReturn JSON:\n" ++ jobMatchShape)

/-- Expected-shape block of the job-description prompt. -/
def jobDescShape : String := joinSep "\n"
  ["\x7b",
   "  \"title\": \"Job Title\",",
   "  \"description\": \"2-3 paragraph job description\",",
   "  \"responsibilities\": [\"responsibility 1\", \"responsibility 2\", \"responsibility 3\", \"responsibility 4\", \"responsibility 5\"],",
   "  \"requirements\": [\"requirement 1\", \"requirement 2\", \"requirement 3\", \"requirement 4\", \"requirement 5\"],",
   "  \"benefits\": [\"benefit 1\", \"benefit 2\", \"benefit 3\", \"benefit 4\"],",
   "  \"skills\": [\"skill 1\", \"skill 2\", \"skill 3\"]",
   "\x7d"]

/-- The generate_job_description prompt. -/
def jobDescPrompt (info : Json) : Except PyErr String := do
  let t ← pyDictGetD info "title" (.str "")
  let comp ← pyDictGetD info "company" (.str "Our Company")
  let loc ← pyDictGetD info "location" (.str "Remote")
  let ty ← pyDictGetD info "type" (.str "Full-time")
  let reqs ← pyDictGetD info "requirements" (.arr [])
  let rj ← pyJoinJson ", " reqs
  pure ("Generate a professional job description. Return ONLY valid JSON.\n\nJOB INFO:\nTitle: "
    ++ pyStr t ++ "\nCompany: " ++ pyStr comp ++ "\nLocation: " ++ pyStr loc ++ "\nType: "
    ++ pyStr ty ++ "\nKey Requirements: " ++ rj ++ "\n\nReturn JSON:\n" ++ jobDescShape)

/-- Expected-shape block of the search prompt. -/
def searchShape : String := joinSep "\n"
  ["\x7b",
   "  \"keywords\": [\"keyword1\", \"keyword2\"],",
   "  \"location\": \"City or Remote\",",
   "  \"jobType\": \"full_time or part_time or contract or remote\",",
   "  \"experienceLevel\": \"entry or mid or senior\",",
   "  \"salaryMin\": 50000,",
   "  \"salaryMax\": 100000,",
   "  \"skills\": [\"skill1\", \"skill2\"]",
   "\x7d"]

/-- The parse_search_query prompt. -/
def searchPrompt (query : String) : String :=
  "Parse this job search query and extract filters. Return ONLY valid JSON.\n\nQuery: \""
    ++ query ++ "\"\n\nReturn JSON:\n" ++ searchShape
    ++ "\n\nUse null for fields that cannot be determined from the query."

/-- The generate_interview_questions prompt. -/
def interviewPrompt (role : String) (skills : List String) (lvl : String) : String :=
  "Generate 10 interview questions for this role. Return ONLY valid JSON array.\n\nRole: "
    ++ role ++ "\nSkills: " ++ joinSep ", " skills ++ "\nExperience Level: " ++ lvl
    ++ "\n\nReturn JSON array:\n[\n  \x7b\n    \"question\": \"Question text\",\n    \"type\": \"technical or behavioral or situational\",\n    \"difficulty\": \"easy or medium or hard\",\n    \"tips\": \"Answer tips\"\n  \x7d\n]"

/-- Expected-shape block of the salary prompt. -/
def salaryShape : String := joinSep "\n"
  ["\x7b",
   "  \"role\": \"Role Name\",",
   "  \"location\": \"Location\",",
   "  \"currency\": \"USD\",",
   "  \"salaryRange\": \x7b",
   "    \"min\": 40000,",
   "    \"median\": 60000,",
   "    \"max\": 90000",
   "  \x7d,",
   "  \"factors\": [\"factor affecting salary 1\", \"factor 2\"],",
   "  \"marketTrend\": \"growing or stable or declining\",",
   "  \"demandLevel\": \"high or medium or low\"",
   "\x7d"]

/-- The get_salary_insights prompt. -/
def salaryPrompt (role loc lvl : String) : String :=
  "Provide salary insights for this role in Africa. Return ONLY valid JSON.\n\nRole: "
    ++ role ++ "\nLocation: " ++ loc ++ "\nExperience: " ++ lvl
    ++ "\n\nReturn JSON (amounts in USD):\n" ++ salaryShape

/-! The six operation handlers of gemini_service.py. Each returns the Python
result (or raised exception) together with the updated state. -/

/-- Input guard of calculate_job_match, lines 177-179: `not
candidate_profile.get('skills') or not job_requirements.get('skills')`, with
Python short-circuit evaluation order. -/
def jobMatchGuard (c j : Json) : Except PyErr Unit :=
  match pyDictGet c "skills" with
  | .error e => .error e
  | .ok a =>
    if !optTruthy a then
      .error (.valueError "Both candidate and job must have skills defined")
    else
      match pyDictGet j "skills" with
      | .error e => .error e
      | .ok b =>
        if !optTruthy b then
          .error (.valueError "Both candidate and job must have skills defined")
        else .ok ()

/-- The degraded search filter built when extraction fails, lines 326-336. -/
def fallbackFilters (query : String) : Json :=
  .obj [("keywords", .arr ((pySplit query).map .str)),
        ("location", .null),
        ("jobType", .null),
        ("experienceLevel", .null),
        ("salaryMin", .null),
        ("salaryMax", .null),
        ("skills", .arr [])]

/-- parse_resume, gemini_service.py lines 89-160. -/
def parse_resume (env : Env) (st : St) (resume_text : String) : Except PyErr Json × St :=
  if resume_text == "" || (pyStrip resume_text).length < 50 then
    (.error (.valueError "Resume text is too short or empty"), st)
  else
    let key := resumeKey env.seed resume_text
    match cachedHit (cacheGet st.cache key) with
    | some v => (.ok v, st)
    | none =>
      let st1 := { st with providerCalls := st.providerCalls + 1 }
      match env.provider (resumePrompt resume_text) with
      | none => (.error (.genericError "AI generation failed"), st1)
      | some result =>
        match extract_json result with
        | none => (.error (.genericError "Could not parse resume data from AI response"), st1)
        | some d =>
          if !isTruthy d then
            (.error (.genericError "Could not parse resume data from AI response"), st1)
          else
            match normalizeResume d with
            | .error e => (.error e, st1)
            | .ok v => (.ok v, cacheSetSt st1 key v CACHE_TIMEOUT_SHORT)

/-- calculate_job_match, gemini_service.py lines 163-226. -/
def calculate_job_match (env : Env) (st : St) (c j : Json) : Except PyErr Json × St :=
  match jobMatchGuard c j with
  | .error e => (.error e, st)
  | .ok _ =>
    let key := jobMatchKey env.seed c j
    match cachedHit (cacheGet st.cache key) with
    | some v => (.ok v, st)
    | none =>
      match jobMatchPrompt c j with
      | .error e => (.error e, st)
      | .ok prompt =>
        let st1 := { st with providerCalls := st.providerCalls + 1 }
        match env.provider prompt with
        | none => (.error (.genericError "AI generation failed"), st1)
        | some result =>
          match extract_json result with
          | none => (.error (.genericError "Could not calculate job match from AI response"), st1)
          | some d =>
            if !isTruthy d then
              (.error (.genericError "Could not calculate job match from AI response"), st1)
            else
              match normalizeJobMatch d with
              | .error e => (.error e, st1)
              | .ok v => (.ok v, cacheSetSt st1 key v CACHE_TIMEOUT_SHORT)

/-- generate_job_description, gemini_service.py lines 229-280. -/
def generate_job_description (env : Env) (st : St) (info : Json) : Except PyErr Json × St :=
  match pyDictGet info "title" with
  | .error e => (.error e, st)
  | .ok t =>
    if !optTruthy t then (.error (.valueError "Job title is required"), st)
    else
      let key := jobDescKey env.seed info
      match cachedHit (cacheGet st.cache key) with
      | some v => (.ok v, st)
      | none =>
        match jobDescPrompt info with
        | .error e => (.error e, st)
        | .ok prompt =>
          let st1 := { st with providerCalls := st.providerCalls + 1 }
          match env.provider prompt with
          | none => (.error (.genericError "AI generation failed"), st1)
          | some result =>
            match extract_json result with
            | none => (.error (.genericError "Could not generate job description from AI response"), st1)
            | some d =>
              if !isTruthy d then
                (.error (.genericError "Could not generate job description from AI response"), st1)
              else
                (.ok d, cacheSetSt st1 key d CACHE_TIMEOUT_LONG)

/-- parse_search_query, gemini_service.py lines 283-341; extraction failure
degrades to fallbackFilters, and whatever filters result is cached. -/
def parse_search_query (env : Env) (st : St) (query : String) : Except PyErr Json × St :=
  if query == "" || (pyStrip query).length < 2 then
    (.error (.valueError "Search query is too short"), st)
  else
    let key := searchKey env.seed query
    match cachedHit (cacheGet st.cache key) with
    | some v => (.ok v, st)
    | none =>
      let st1 := { st with providerCalls := st.providerCalls + 1 }
      match env.provider (searchPrompt query) with
      | none => (.error (.genericError "AI generation failed"), st1)
      | some result =>
        let filters :=
          match extract_json result with
          | some f => if isTruthy f then f else fallbackFilters query
          | none => fallbackFilters query
        (.ok filters, cacheSetSt st1 key filters CACHE_TIMEOUT_LONG)

/-- generate_interview_questions, gemini_service.py lines 344-403; the inline
bracket extraction degrades to the empty list, which is cached and returned. -/
def generate_interview_questions (env : Env) (st : St) (role : String)
    (skills : List String) (experience_level : String) : Except PyErr Json × St :=
  if role == "" then (.error (.valueError "Role is required"), st)
  else
    let key := interviewKey env.seed role skills experience_level
    match cachedHit (cacheGet st.cache key) with
    | some v => (.ok v, st)
    | none =>
      let st1 := { st with providerCalls := st.providerCalls + 1 }
      match env.provider (interviewPrompt role skills experience_level) with
      | none => (.error (.genericError "AI generation failed"), st1)
      | some result =>
        let questions :=
          if pyContains result "[" then
            match jsonLoads (pySlice result (pyFind result "[" 0) (pyRFindChar result ']' + 1)) with
            | some q => q
            | none => .arr []
          else .arr []
        (.ok questions, cacheSetSt st1 key questions CACHE_TIMEOUT_LONG)

/-- get_salary_insights, gemini_service.py lines 406-461. -/
def get_salary_insights (env : Env) (st : St) (role loc experience_level : String) :
    Except PyErr Json × St :=
  if role == "" then (.error (.valueError "Role is required"), st)
  else
    let key := salaryKey env.seed role loc experience_level
    match cachedHit (cacheGet st.cache key) with
    | some v => (.ok v, st)
    | none =>
      let st1 := { st with providerCalls := st.providerCalls + 1 }
      match env.provider (salaryPrompt role loc experience_level) with
      | none => (.error (.genericError "AI generation failed"), st1)
      | some result =>
        match extract_json result with
        | none => (.error (.genericError "Could not get salary insights from AI response"), st1)
        | some d =>
          if !isTruthy d then
            (.error (.genericError "Could not get salary insights from AI response"), st1)
          else
            (.ok d, cacheSetSt st1 key d CACHE_TIMEOUT_LONG)

/-! Request validation, modelling the declared DRF serializers of
serializers.py: required/optional fields, CharField whitespace trimming with
min/max length and blank rejection, list-of-string fields, integer and JSON
fields. (DRF-level coercions of non-str primitives are outside the model.) -/

/-- Field lookup in a request payload dict. -/
def lookupField (data : List (String × Json)) (k : String) : Option Json :=
  (data.find? (fun e => e.1 == k)).map (fun e => e.2)

/-- A DRF CharField: accepts a str, trims whitespace, then enforces blank and
length constraints; yields the validated (trimmed) value. -/
def drfChar (v : Json) (minLen maxLen : Nat) (allowBlank : Bool) : Option String :=
  match v with
  | .str s =>
    let t := pyStrip s
    if !allowBlank && t == "" then none
    else if t.length < minLen || maxLen < t.length then none
    else some t
  | _ => none

/-- Elements of a DRF ListField(child=CharField(max_length=m)). -/
def drfStrList : List Json → Nat → Option (List String)
  | [], _ => some []
  | x :: xs, m =>
    match drfChar x 0 m false with
    | some t => (drfStrList xs m).map (fun l => t :: l)
    | none => none

/-- A DRF ListField of CharFields. -/
def drfListStr (v : Json) (elemMax : Nat) : Option (List String) :=
  match v with
  | .arr xs => drfStrList xs elemMax
  | _ => none

/-- ResumeParseRequestSerializer: resume_text, CharField(min 50, max 50000). -/
def validateResumeParse (data : List (String × Json)) : Option String :=
  (lookupField data "resume_text").bind (fun v => drfChar v 50 50000 false)

/-- JobMatchRequestSerializer: job_id IntegerField, candidate_profile
JSONField (any JSON value). -/
def validateJobMatch (data : List (String × Json)) : Option (Int × Json) :=
  match lookupField data "job_id", lookupField data "candidate_profile" with
  | some (.int n), some p => some (n, p)
  | _, _ => none

/-- An optional blank-allowed CharField rendered as a validated_data entry
(absent field contributes nothing). -/
def optField (data : List (String × Json)) (name : String) (maxLen : Nat) :
    Option (List (String × Json)) :=
  match lookupField data name with
  | none => some []
  | some v => (drfChar v 0 maxLen true).map (fun s => [(name, Json.str s)])

/-- JobDescriptionRequestSerializer; the view passes serializer.validated_data
itself to the service, so the result is the validated dict in field order. -/
def validateJobDescription (data : List (String × Json)) : Option Json := do
  let t ← (lookupField data "title").bind (fun v => drfChar v 0 200 false)
  let comp ← optField data "company" 200
  let loc ← optField data "location" 200
  let ty ← optField data "type" 50
  let reqs ←
    match lookupField data "requirements" with
    | none => some []
    | some v => (drfListStr v 500).map (fun l => [("requirements", Json.arr (l.map .str))])
  pure (.obj ([("title", Json.str t)] ++ comp ++ loc ++ ty ++ reqs))

/-- SearchParseRequestSerializer: query, CharField(min 2, max 500). -/
def validateSearch (data : List (String × Json)) : Option String :=
  (lookupField data "query").bind (fun v => drfChar v 2 500 false)

/-- InterviewQuestionsRequestSerializer: role required; skills and
experience_level optional (absent fields reported as none). -/
def validateInterview (data : List (String × Json)) :
    Option (String × Option (List String) × Option String) := do
  let role ← (lookupField data "role").bind (fun v => drfChar v 0 200 false)
  let sk ←
    match lookupField data "skills" with
    | none => some none
    | some v => (drfListStr v 100).map some
  let lvl ←
    match lookupField data "experience_level" with
    | none => some none
    | some v => (drfChar v 0 50 true).map some
  pure (role, sk, lvl)

/-- SalaryInsightsRequestSerializer: role required; location and
experience_level optional. -/
def validateSalary (data : List (String × Json)) :
    Option (String × Option String × Option String) := do
  let role ← (lookupField data "role").bind (fun v => drfChar v 0 200 false)
  let loc ←
    match lookupField data "location" with
    | none => some none
    | some v => (drfChar v 0 200 true).map some
  let lvl ←
    match lookupField data "experience_level" with
    | none => some none
    | some v => (drfChar v 0 50 true).map some
  pure (role, loc, lvl)

/-! The view layer of views.py. -/

/-- An HTTP response: status code and body payload. -/
structure Resp where
  status : Nat
  body : Json

/-- log_ai_usage, views.py lines 36-43: append one AIUsageLog row. -/
def log_ai_usage (st : St) (user : Nat) (service_type : String) (success : Bool)
    (error_message : Option String) : St :=
  { st with usageLogs := st.usageLogs ++ [⟨user, service_type, success, error_message⟩] }

/-- Attribute access on a Job model instance: exactly the fields declared in
jobs/models.py resolve; anything else raises AttributeError. -/
def jobAttr (j : JobRec) (name : String) : Except PyErr Json :=
  if name == "title" then .ok (.str j.title)
  else if name == "location" then .ok (.str j.location)
  else if name == "is_remote" then .ok (.bool j.is_remote)
  else if name == "job_type" then .ok (.str j.job_type)
  else if name == "salary_range" then .ok (.str j.salary_range)
  else if name == "description" then .ok (.str j.description)
  else if name == "requirements" then .ok (.str j.requirements)
  else if name == "skills" then .ok j.skills
  else if name == "is_active" then .ok (.bool j.is_active)
  else .error (.attributeError ("Job object has no attribute " ++ name))

/-- The job_requirements dict literal of calculate_job_match_view, lines
120-126, evaluated in Python order; it dereferences job.required_skills,
job.experience_level, job.salary_min and job.salary_max, which jobs/models.py
does not declare. -/
def buildJobRequirements (job : JobRec) : Except PyErr Json := do
  let title ← jobAttr job "title"
  let rskills ← jobAttr job "required_skills"
  let skills := if isTruthy rskills then rskills else Json.arr []
  let lvl ← jobAttr job "experience_level"
  let loc ← jobAttr job "location"
  let smin ← jobAttr job "salary_min"
  let srange ←
    if isTruthy smin then do
      let smax ← jobAttr job "salary_max"
      pure (Json.str ("$" ++ pyStr smin ++ "-$" ++ pyStr smax))
    else pure (Json.str "Negotiable")
  pure (Json.obj [("title", title), ("skills", skills), ("experienceLevel", lvl),
                  ("location", loc), ("salaryRange", srange)])

/-- parse_resume_view, views.py lines 46-86. -/
def parse_resume_view (env : Env) (st : St) (user : Nat) (data : List (String × Json)) :
    Resp × St :=
  match validateResumeParse data with
  | none => (⟨400, .null⟩, st)
  | some resume_text =>
    match parse_resume env st resume_text with
    | (.ok parsed, st1) =>
      let st2 := { st1 with parsedResumes := st1.parsedResumes ++ [(user, resume_text, parsed)] }
      let st3 := log_ai_usage st2 user "resume_parse" true none
      (⟨200, .obj [("id", .int (Int.ofNat st2.parsedResumes.length)), ("data", parsed)]⟩, st3)
    | (.error e, st1) =>
      let st2 := log_ai_usage st1 user "resume_parse" false (some (errStr e))
      (⟨500, .obj [("error", .str "Failed to parse resume"), ("detail", .str (errStr e))]⟩, st2)

/-- calculate_job_match_view, views.py lines 89-153; a missing job returns 404
outside the usage-logging try block. -/
def calculate_job_match_view (env : Env) (st : St) (user : Nat) (data : List (String × Json)) :
    Resp × St :=
  match validateJobMatch data with
  | none => (⟨400, .null⟩, st)
  | some (job_id, candidate_profile) =>
    match (env.jobs.find? (fun e => e.1 == job_id)).map (fun e => e.2) with
    | none => (⟨404, .obj [("error", .str "Job not found")]⟩, st)
    | some job =>
      match buildJobRequirements job with
      | .error e =>
        (⟨500, .obj [("error", .str "Failed to calculate job match"), ("detail", .str (errStr e))]⟩,
         log_ai_usage st user "job_match" false (some (errStr e)))
      | .ok jreq =>
        match calculate_job_match env st candidate_profile jreq with
        | (.error e, st1) =>
          (⟨500, .obj [("error", .str "Failed to calculate job match"), ("detail", .str (errStr e))]⟩,
           log_ai_usage st1 user "job_match" false (some (errStr e)))
        | (.ok md, st1) =>
          match pyDictGetD md "matchScore" (.int 50) with
          | .error e =>
            (⟨500, .obj [("error", .str "Failed to calculate job match"), ("detail", .str (errStr e))]⟩,
             log_ai_usage st1 user "job_match" false (some (errStr e)))
          | .ok score =>
            let st2 := { st1 with
              jobMatches := ((user, job_id), score, md)
                :: st1.jobMatches.filter (fun e => !(e.1.1 == user && e.1.2 == job_id)) }
            let st3 := log_ai_usage st2 user "job_match" true none
            (⟨200, md⟩, st3)

/-- generate_job_description_view, views.py lines 156-192. -/
def generate_job_description_view (env : Env) (st : St) (user : Nat)
    (data : List (String × Json)) : Resp × St :=
  match validateJobDescription data with
  | none => (⟨400, .null⟩, st)
  | some job_info =>
    match generate_job_description env st job_info with
    | (.ok jd, st1) => (⟨200, jd⟩, log_ai_usage st1 user "job_description" true none)
    | (.error e, st1) =>
      (⟨500, .obj [("error", .str "Failed to generate job description"), ("detail", .str (errStr e))]⟩,
       log_ai_usage st1 user "job_description" false (some (errStr e)))

/-- parse_search_query_view, views.py lines 195-225. -/
def parse_search_query_view (env : Env) (st : St) (user : Nat)
    (data : List (String × Json)) : Resp × St :=
  match validateSearch data with
  | none => (⟨400, .null⟩, st)
  | some query =>
    match parse_search_query env st query with
    | (.ok filters, st1) => (⟨200, filters⟩, log_ai_usage st1 user "search_parse" true none)
    | (.error e, st1) =>
      (⟨500, .obj [("error", .str "Failed to parse search query"), ("detail", .str (errStr e))]⟩,
       log_ai_usage st1 user "search_parse" false (some (errStr e)))

/-- generate_interview_questions_view, views.py lines 228-266. -/
def generate_interview_questions_view (env : Env) (st : St) (user : Nat)
    (data : List (String × Json)) : Resp × St :=
  match validateInterview data with
  | none => (⟨400, .null⟩, st)
  | some (role, skOpt, lvlOpt) =>
    let skills := skOpt.getD []
    let experience_level := lvlOpt.getD "mid"
    match generate_interview_questions env st role skills experience_level with
    | (.ok qs, st1) =>
      (⟨200, .obj [("questions", qs)]⟩, log_ai_usage st1 user "interview_questions" true none)
    | (.error e, st1) =>
      (⟨500, .obj [("error", .str "Failed to generate interview questions"), ("detail", .str (errStr e))]⟩,
       log_ai_usage st1 user "interview_questions" false (some (errStr e)))

/-- get_salary_insights_view, views.py lines 269-305. -/
def get_salary_insights_view (env : Env) (st : St) (user : Nat)
    (data : List (String × Json)) : Resp × St :=
  match validateSalary data with
  | none => (⟨400, .null⟩, st)
  | some (role, locOpt, lvlOpt) =>
    let location := locOpt.getD "Africa"
    let experience_level := lvlOpt.getD "mid"
    match get_salary_insights env st role location experience_level with
    | (.ok ins, st1) => (⟨200, ins⟩, log_ai_usage st1 user "salary_insights" true none)
    | (.error e, st1) =>
      (⟨500, .obj [("error", .str "Failed to get salary insights"), ("detail", .str (errStr e))]⟩,
       log_ai_usage st1 user "salary_insights" false (some (errStr e)))

/-! Helper predicates and lemmas about state evolution. -/

/-- All cache puts performed between the two states use the given ttl. -/
def PutsOnly (st st' : St) (ttl : Nat) : Prop :=
  ∃ l, st'.puts = st.puts ++ l ∧ ∀ e ∈ l, e.2.2 = ttl

theorem putsOnly_same {st st' : St} (ttl : Nat) (h : st'.puts = st.puts) :
    PutsOnly st st' ttl :=
  ⟨[], by simp [h], by simp⟩

theorem putsOnly_set {st st1 : St} (h : st1.puts = st.puts) (k : String) (v : Json) (ttl : Nat) :
    PutsOnly st (cacheSetSt st1 k v ttl) ttl :=
  ⟨[(k, v, ttl)], by simp [cacheSetSt, h], by simp⟩

/-- Every cache put performed by the invocation stores exactly the value the
invocation returns as its successful result. -/
def PutsFromResult (st : St) (out : Except PyErr Json × St) : Prop :=
  ∀ e ∈ out.2.puts, e ∈ st.puts ∨ out.1 = .ok e.2.1

theorem putsFrom_same {st st' : St} {r : Except PyErr Json} (h : st'.puts = st.puts) :
    PutsFromResult st (r, st') :=
  fun _ he => .inl (h ▸ he)

theorem putsFrom_set {st st1 : St} (h : st1.puts = st.puts) (k : String) (v : Json) (ttl : Nat) :
    PutsFromResult st (.ok v, cacheSetSt st1 k v ttl) := by
  intro e he
  simp only [cacheSetSt, h, List.mem_append, List.mem_singleton] at he
  rcases he with he | he
  · exact .inl he
  · subst he; exact .inr rfl

theorem puts_resume (env : Env) (st : St) (t : String) :
    PutsOnly st (parse_resume env st t).2 CACHE_TIMEOUT_SHORT := by
  unfold parse_resume; dsimp only; repeat' split
  all_goals first
    | exact putsOnly_same _ rfl
    | exact putsOnly_set rfl _ _ _

theorem puts_job_match (env : Env) (st : St) (c j : Json) :
    PutsOnly st (calculate_job_match env st c j).2 CACHE_TIMEOUT_SHORT := by
  unfold calculate_job_match; dsimp only; repeat' split
  all_goals first
    | exact putsOnly_same _ rfl
    | exact putsOnly_set rfl _ _ _

theorem puts_job_desc (env : Env) (st : St) (info : Json) :
    PutsOnly st (generate_job_description env st info).2 CACHE_TIMEOUT_LONG := by
  unfold generate_job_description; dsimp only; repeat' split
  all_goals first
    | exact putsOnly_same _ rfl
    | exact putsOnly_set rfl _ _ _

theorem puts_search (env : Env) (st : St) (q : String) :
    PutsOnly st (parse_search_query env st q).2 CACHE_TIMEOUT_LONG := by
  unfold parse_search_query; dsimp only; repeat' split
  all_goals first
    | exact putsOnly_same _ rfl
    | exact putsOnly_set rfl _ _ _

theorem puts_interview (env : Env) (st : St) (role : String) (sk : List String) (lvl : String) :
    PutsOnly st (generate_interview_questions env st role sk lvl).2 CACHE_TIMEOUT_LONG := by
  unfold generate_interview_questions; dsimp only; repeat' split
  all_goals first
    | exact putsOnly_same _ rfl
    | exact putsOnly_set rfl _ _ _

theorem puts_salary (env : Env) (st : St) (role loc lvl : String) :
    PutsOnly st (get_salary_insights env st role loc lvl).2 CACHE_TIMEOUT_LONG := by
  unfold get_salary_insights; dsimp only; repeat' split
  all_goals first
    | exact putsOnly_same _ rfl
    | exact putsOnly_set rfl _ _ _

theorem putsFrom_resume (env : Env) (st : St) (t : String) :
    PutsFromResult st (parse_resume env st t) := by
  unfold parse_resume; dsimp only; repeat' split
  all_goals first
    | exact putsFrom_same rfl
    | exact putsFrom_set rfl _ _ _

theorem putsFrom_job_match (env : Env) (st : St) (c j : Json) :
    PutsFromResult st (calculate_job_match env st c j) := by
  unfold calculate_job_match; dsimp only; repeat' split
  all_goals first
    | exact putsFrom_same rfl
    | exact putsFrom_set rfl _ _ _

theorem putsFrom_job_desc (env : Env) (st : St) (info : Json) :
    PutsFromResult st (generate_job_description env st info) := by
  unfold generate_job_description; dsimp only; repeat' split
  all_goals first
    | exact putsFrom_same rfl
    | exact putsFrom_set rfl _ _ _

theorem putsFrom_search (env : Env) (st : St) (q : String) :
    PutsFromResult st (parse_search_query env st q) := by
  unfold parse_search_query; dsimp only; repeat' split
  all_goals first
    | exact putsFrom_same rfl
    | exact putsFrom_set rfl _ _ _

theorem putsFrom_interview (env : Env) (st : St) (role : String) (sk : List String) (lvl : String) :
    PutsFromResult st (generate_interview_questions env st role sk lvl) := by
  unfold generate_interview_questions; dsimp only; repeat' split
  all_goals first
    | exact putsFrom_same rfl
    | exact putsFrom_set rfl _ _ _

theorem putsFrom_salary (env : Env) (st : St) (role loc lvl : String) :
    PutsFromResult st (get_salary_insights env st role loc lvl) := by
  unfold get_salary_insights; dsimp only; repeat' split
  all_goals first
    | exact putsFrom_same rfl
    | exact putsFrom_set rfl _ _ _

theorem usage_resume (env : Env) (st : St) (t : String) :
    (parse_resume env st t).2.usageLogs = st.usageLogs := by
  unfold parse_resume; dsimp only; repeat' split
  all_goals rfl

theorem usage_job_match (env : Env) (st : St) (c j : Json) :
    (calculate_job_match env st c j).2.usageLogs = st.usageLogs := by
  unfold calculate_job_match; dsimp only; repeat' split
  all_goals rfl

theorem usage_job_desc (env : Env) (st : St) (info : Json) :
    (generate_job_description env st info).2.usageLogs = st.usageLogs := by
  unfold generate_job_description; dsimp only; repeat' split
  all_goals rfl

theorem usage_search (env : Env) (st : St) (q : String) :
    (parse_search_query env st q).2.usageLogs = st.usageLogs := by
  unfold parse_search_query; dsimp only; repeat' split
  all_goals rfl

theorem usage_interview (env : Env) (st : St) (role : String) (sk : List String) (lvl : String) :
    (generate_interview_questions env st role sk lvl).2.usageLogs = st.usageLogs := by
  unfold generate_interview_questions; dsimp only; repeat' split
  all_goals rfl

theorem usage_salary (env : Env) (st : St) (role loc lvl : String) :
    (get_salary_insights env st role loc lvl).2.usageLogs = st.usageLogs := by
  unfold get_salary_insights; dsimp only; repeat' split
  all_goals rfl

/-- A put is visible to a subsequent get for the same key. -/
theorem cacheGet_setSt (st : St) (k : String) (v : Json) (ttl : Nat) :
    cacheGet (cacheSetSt st k v ttl).cache k = some v := by
  simp [cacheGet, cacheSetSt, List.find?]

/-- A served hit is exactly a stored truthy value. -/
theorem cachedHit_eq_some {o : Option Json} {v : Json} (h : cachedHit o = some v) :
    o = some v := by
  cases o with
  | none => simp [cachedHit] at h
  | some u =>
    simp only [cachedHit] at h
    by_cases hu : isTruthy u = true
    · rw [if_pos hu] at h; exact congrArg some (Option.some.inj h)
    · rw [if_neg hu] at h; cases h

/-- Python strip is idempotent (list level). -/
theorem stripL_idem (l : List Char) : stripL (stripL l) = stripL l := by
  have hrd : ∀ x : List Char, stripL x = List.rdropWhile isPyWs (x.dropWhile isPyWs) :=
    fun _ => rfl
  rw [hrd, hrd]
  have hB : (List.rdropWhile isPyWs (l.dropWhile isPyWs)).dropWhile isPyWs
      = List.rdropWhile isPyWs (l.dropWhile isPyWs) := by
    rw [List.dropWhile_eq_self_iff]
    intro hl
    have hpre := List.rdropWhile_prefix isPyWs (l.dropWhile isPyWs)
    have h0 : 0 < (l.dropWhile isPyWs).length := lt_of_lt_of_le hl hpre.length_le
    have hnot := List.dropWhile_get_zero_not isPyWs l h0
    rw [hpre.get_eq hl]
    exact hnot
  rw [hB, List.rdropWhile_idempotent]

/-- Python strip is idempotent. -/
theorem pyStrip_idem (s : String) : pyStrip (pyStrip s) = pyStrip s := by
  unfold pyStrip
  exact congrArg String.mk (stripL_idem s.toList)

/-! Cache idempotence machinery: a successful call leaves its truthy result
under its key, and a truthy stored value short-circuits the handler. -/

theorem serve_resume (env : Env) (st : St) (t : String) (v : Json)
    (hg : (t == "" || decide ((pyStrip t).length < 50)) = false)
    (hc : cacheGet st.cache (resumeKey env.seed t) = some v)
    (htr : isTruthy v = true) :
    parse_resume env st t = (.ok v, st) := by
  unfold parse_resume
  dsimp only
  rw [hg]
  simp only [Bool.false_eq_true, if_false]
  rw [hc]
  simp [cachedHit, htr]

theorem resume_ok_guard {env : Env} {st st' : St} {t : String} {v : Json}
    (h : parse_resume env st t = (.ok v, st')) :
    (t == "" || decide ((pyStrip t).length < 50)) = false := by
  cases hg : (t == "" || decide ((pyStrip t).length < 50)) with
  | false => rfl
  | true =>
    unfold parse_resume at h
    rw [hg] at h
    simp at h

theorem resume_ok_cached {env : Env} {st st' : St} {t : String} {v : Json}
    (h : parse_resume env st t = (.ok v, st')) (htr : isTruthy v = true) :
    cacheGet st'.cache (resumeKey env.seed t) = some v := by
  unfold parse_resume at h
  dsimp only at h
  split at h
  · simp at h
  · split at h
    case _ v1 hhit =>
      simp only [Prod.mk.injEq, Except.ok.injEq] at h
      obtain ⟨hv1, hst⟩ := h
      subst hv1
      subst hst
      exact cachedHit_eq_some hhit
    case _ =>
      split at h
      · simp at h
      · split at h
        · simp at h
        · split at h
          · simp at h
          · split at h
            · simp at h
            · simp only [Prod.mk.injEq, Except.ok.injEq] at h
              obtain ⟨hv1, hst⟩ := h
              subst hv1
              rw [← hst]
              exact cacheGet_setSt _ _ _ _

theorem idem_resume {env : Env} {st st' : St} {t : String} {v : Json}
    (h : parse_resume env st t = (.ok v, st')) (htr : isTruthy v = true) :
    parse_resume env st' t = (.ok v, st') :=
  serve_resume env st' t v (resume_ok_guard h) (resume_ok_cached h htr) htr

theorem serve_job_match (env : Env) (st : St) (c j : Json) (v : Json)
    (hg : jobMatchGuard c j = .ok ())
    (hc : cacheGet st.cache (jobMatchKey env.seed c j) = some v)
    (htr : isTruthy v = true) :
    calculate_job_match env st c j = (.ok v, st) := by
  unfold calculate_job_match
  dsimp only
  rw [hg]
  dsimp only
  rw [hc]
  simp [cachedHit, htr]

theorem job_match_ok_guard {env : Env} {st st' : St} {c j : Json} {v : Json}
    (h : calculate_job_match env st c j = (.ok v, st')) :
    jobMatchGuard c j = .ok () := by
  cases hgm : jobMatchGuard c j with
  | error e =>
    unfold calculate_job_match at h
    rw [hgm] at h
    simp at h
  | ok u => cases u; rfl

theorem job_match_ok_cached {env : Env} {st st' : St} {c j : Json} {v : Json}
    (h : calculate_job_match env st c j = (.ok v, st')) (htr : isTruthy v = true) :
    cacheGet st'.cache (jobMatchKey env.seed c j) = some v := by
  unfold calculate_job_match at h
  dsimp only at h
  split at h
  · simp at h
  · split at h
    case _ v1 hhit =>
      simp only [Prod.mk.injEq, Except.ok.injEq] at h
      obtain ⟨hv1, hst⟩ := h
      subst hv1
      subst hst
      exact cachedHit_eq_some hhit
    case _ =>
      split at h
      · simp at h
      · split at h
        · simp at h
        · split at h
          · simp at h
          · split at h
            · simp at h
            · split at h
              · simp at h
              · simp only [Prod.mk.injEq, Except.ok.injEq] at h
                obtain ⟨hv1, hst⟩ := h
                subst hv1
                rw [← hst]
                exact cacheGet_setSt _ _ _ _

theorem idem_job_match {env : Env} {st st' : St} {c j : Json} {v : Json}
    (h : calculate_job_match env st c j = (.ok v, st')) (htr : isTruthy v = true) :
    calculate_job_match env st' c j = (.ok v, st') :=
  serve_job_match env st' c j v (job_match_ok_guard h) (job_match_ok_cached h htr) htr

theorem serve_job_desc (env : Env) (st : St) (info : Json) (tv : Option Json) (v : Json)
    (ht : pyDictGet info "title" = .ok tv) (htt : optTruthy tv = true)
    (hc : cacheGet st.cache (jobDescKey env.seed info) = some v)
    (htr : isTruthy v = true) :
    generate_job_description env st info = (.ok v, st) := by
  unfold generate_job_description
  dsimp only
  rw [ht]
  dsimp only
  rw [htt]
  simp only [Bool.not_true, Bool.false_eq_true, if_false]
  rw [hc]
  simp [cachedHit, htr]

theorem job_desc_ok_title {env : Env} {st st' : St} {info : Json} {v : Json}
    (h : generate_job_description env st info = (.ok v, st')) :
    ∃ tv, pyDictGet info "title" = .ok tv ∧ optTruthy tv = true := by
  cases hti : pyDictGet info "title" with
  | error e =>
    unfold generate_job_description at h
    rw [hti] at h
    simp at h
  | ok tv =>
    cases hot : optTruthy tv with
    | false =>
      unfold generate_job_description at h
      rw [hti] at h
      dsimp only at h
      rw [hot] at h
      simp at h
    | true => exact ⟨tv, rfl, hot⟩

theorem job_desc_ok_cached {env : Env} {st st' : St} {info : Json} {v : Json}
    (h : generate_job_description env st info = (.ok v, st')) (htr : isTruthy v = true) :
    cacheGet st'.cache (jobDescKey env.seed info) = some v := by
  unfold generate_job_description at h
  dsimp only at h
  split at h
  · simp at h
  · split at h
    · simp at h
    · split at h
      case _ v1 hhit =>
        simp only [Prod.mk.injEq, Except.ok.injEq] at h
        obtain ⟨hv1, hst⟩ := h
        subst hv1
        subst hst
        exact cachedHit_eq_some hhit
      case _ =>
        split at h
        · simp at h
        · split at h
          · simp at h
          · split at h
            · simp at h
            · split at h
              · simp at h
              · simp only [Prod.mk.injEq, Except.ok.injEq] at h
                obtain ⟨hv1, hst⟩ := h
                subst hv1
                rw [← hst]
                exact cacheGet_setSt _ _ _ _

theorem idem_job_desc {env : Env} {st st' : St} {info : Json} {v : Json}
    (h : generate_job_description env st info = (.ok v, st')) (htr : isTruthy v = true) :
    generate_job_description env st' info = (.ok v, st') := by
  obtain ⟨tv, ht, htt⟩ := job_desc_ok_title h
  exact serve_job_desc env st' info tv v ht htt (job_desc_ok_cached h htr) htr

theorem serve_search (env : Env) (st : St) (q : String) (v : Json)
    (hg : (q == "" || decide ((pyStrip q).length < 2)) = false)
    (hc : cacheGet st.cache (searchKey env.seed q) = some v)
    (htr : isTruthy v = true) :
    parse_search_query env st q = (.ok v, st) := by
  unfold parse_search_query
  dsimp only
  rw [hg]
  simp only [Bool.false_eq_true, if_false]
  rw [hc]
  simp [cachedHit, htr]

theorem search_ok_guard {env : Env} {st st' : St} {q : String} {v : Json}
    (h : parse_search_query env st q = (.ok v, st')) :
    (q == "" || decide ((pyStrip q).length < 2)) = false := by
  cases hg : (q == "" || decide ((pyStrip q).length < 2)) with
  | false => rfl
  | true =>
    unfold parse_search_query at h
    rw [hg] at h
    simp at h

theorem search_ok_cached {env : Env} {st st' : St} {q : String} {v : Json}
    (h : parse_search_query env st q = (.ok v, st')) (htr : isTruthy v = true) :
    cacheGet st'.cache (searchKey env.seed q) = some v := by
  unfold parse_search_query at h
  dsimp only at h
  split at h
  · simp at h
  · split at h
    case _ v1 hhit =>
      simp only [Prod.mk.injEq, Except.ok.injEq] at h
      obtain ⟨hv1, hst⟩ := h
      subst hv1
      subst hst
      exact cachedHit_eq_some hhit
    case _ =>
      split at h
      · simp at h
      · simp only [Prod.mk.injEq, Except.ok.injEq] at h
        obtain ⟨hv1, hst⟩ := h
        subst hv1
        rw [← hst]
        exact cacheGet_setSt _ _ _ _

theorem idem_search {env : Env} {st st' : St} {q : String} {v : Json}
    (h : parse_search_query env st q = (.ok v, st')) (htr : isTruthy v = true) :
    parse_search_query env st' q = (.ok v, st') :=
  serve_search env st' q v (search_ok_guard h) (search_ok_cached h htr) htr

theorem serve_interview (env : Env) (st : St) (role : String) (sk : List String) (lvl : String)
    (v : Json) (hg : (role == "") = false)
    (hc : cacheGet st.cache (interviewKey env.seed role sk lvl) = some v)
    (htr : isTruthy v = true) :
    generate_interview_questions env st role sk lvl = (.ok v, st) := by
  unfold generate_interview_questions
  dsimp only
  rw [hg]
  simp only [Bool.false_eq_true, if_false]
  rw [hc]
  simp [cachedHit, htr]

theorem interview_ok_guard {env : Env} {st st' : St} {role : String} {sk : List String}
    {lvl : String} {v : Json}
    (h : generate_interview_questions env st role sk lvl = (.ok v, st')) :
    (role == "") = false := by
  cases hg : (role == "") with
  | false => rfl
  | true =>
    unfold generate_interview_questions at h
    rw [hg] at h
    simp at h

theorem interview_ok_cached {env : Env} {st st' : St} {role : String} {sk : List String}
    {lvl : String} {v : Json}
    (h : generate_interview_questions env st role sk lvl = (.ok v, st')) (htr : isTruthy v = true) :
    cacheGet st'.cache (interviewKey env.seed role sk lvl) = some v := by
  unfold generate_interview_questions at h
  dsimp only at h
  split at h
  · simp at h
  · split at h
    case _ v1 hhit =>
      simp only [Prod.mk.injEq, Except.ok.injEq] at h
      obtain ⟨hv1, hst⟩ := h
      subst hv1
      subst hst
      exact cachedHit_eq_some hhit
    case _ =>
      split at h
      · simp at h
      · simp only [Prod.mk.injEq, Except.ok.injEq] at h
        obtain ⟨hv1, hst⟩ := h
        subst hv1
        rw [← hst]
        exact cacheGet_setSt _ _ _ _

theorem idem_interview {env : Env} {st st' : St} {role : String} {sk : List String}
    {lvl : String} {v : Json}
    (h : generate_interview_questions env st role sk lvl = (.ok v, st')) (htr : isTruthy v = true) :
    generate_interview_questions env st' role sk lvl = (.ok v, st') :=
  serve_interview env st' role sk lvl v (interview_ok_guard h) (interview_ok_cached h htr) htr

theorem serve_salary (env : Env) (st : St) (role loc lvl : String) (v : Json)
    (hg : (role == "") = false)
    (hc : cacheGet st.cache (salaryKey env.seed role loc lvl) = some v)
    (htr : isTruthy v = true) :
    get_salary_insights env st role loc lvl = (.ok v, st) := by
  unfold get_salary_insights
  dsimp only
  rw [hg]
  simp only [Bool.false_eq_true, if_false]
  rw [hc]
  simp [cachedHit, htr]

theorem salary_ok_guard {env : Env} {st st' : St} {role loc lvl : String} {v : Json}
    (h : get_salary_insights env st role loc lvl = (.ok v, st')) :
    (role == "") = false := by
  cases hg : (role == "") with
  | false => rfl
  | true =>
    unfold get_salary_insights at h
    rw [hg] at h
    simp at h

theorem salary_ok_cached {env : Env} {st st' : St} {role loc lvl : String} {v : Json}
    (h : get_salary_insights env st role loc lvl = (.ok v, st')) (htr : isTruthy v = true) :
    cacheGet st'.cache (salaryKey env.seed role loc lvl) = some v := by
  unfold get_salary_insights at h
  dsimp only at h
  split at h
  · simp at h
  · split at h
    case _ v1 hhit =>
      simp only [Prod.mk.injEq, Except.ok.injEq] at h
      obtain ⟨hv1, hst⟩ := h
      subst hv1
      subst hst
      exact cachedHit_eq_some hhit
    case _ =>
      split at h
      · simp at h
      · split at h
        · simp at h
        · split at h
          · simp at h
          · simp only [Prod.mk.injEq, Except.ok.injEq] at h
            obtain ⟨hv1, hst⟩ := h
            subst hv1
            rw [← hst]
            exact cacheGet_setSt _ _ _ _

theorem idem_salary {env : Env} {st st' : St} {role loc lvl : String} {v : Json}
    (h : get_salary_insights env st role loc lvl = (.ok v, st')) (htr : isTruthy v = true) :
    get_salary_insights env st' role loc lvl = (.ok v, st') :=
  serve_salary env st' role loc lvl v (salary_ok_guard h) (salary_ok_cached h htr) htr

/-! Falsy cached values are not served: the truthiness guard sends the
handler down the full generate path, which calls the provider exactly once. -/

theorem falsy_resume (env : Env) (st : St) (t : String) (v : Json)
    (hg : (t == "" || decide ((pyStrip t).length < 50)) = false)
    (hc : cacheGet st.cache (resumeKey env.seed t) = some v)
    (hv : isTruthy v = false) :
    (parse_resume env st t).2.providerCalls = st.providerCalls + 1 := by
  unfold parse_resume
  dsimp only
  rw [hg]
  simp only [Bool.false_eq_true, if_false]
  rw [hc]
  simp only [cachedHit, hv, Bool.false_eq_true, if_false]
  repeat' split
  all_goals rfl

theorem falsy_job_match (env : Env) (st : St) (c j : Json) (v : Json) (p : String)
    (hg : jobMatchGuard c j = .ok ())
    (hc : cacheGet st.cache (jobMatchKey env.seed c j) = some v)
    (hv : isTruthy v = false)
    (hp : jobMatchPrompt c j = .ok p) :
    (calculate_job_match env st c j).2.providerCalls = st.providerCalls + 1 := by
  unfold calculate_job_match
  dsimp only
  rw [hg]
  dsimp only
  rw [hc]
  simp only [cachedHit, hv, Bool.false_eq_true, if_false]
  rw [hp]
  dsimp only
  repeat' split
  all_goals rfl

theorem falsy_job_desc (env : Env) (st : St) (info : Json) (tv : Option Json) (v : Json) (p : String)
    (ht : pyDictGet info "title" = .ok tv) (htt : optTruthy tv = true)
    (hc : cacheGet st.cache (jobDescKey env.seed info) = some v)
    (hv : isTruthy v = false)
    (hp : jobDescPrompt info = .ok p) :
    (generate_job_description env st info).2.providerCalls = st.providerCalls + 1 := by
  unfold generate_job_description
  dsimp only
  rw [ht]
  dsimp only
  rw [htt]
  simp only [Bool.not_true, Bool.false_eq_true, if_false]
  rw [hc]
  simp only [cachedHit, hv, Bool.false_eq_true, if_false]
  rw [hp]
  dsimp only
  repeat' split
  all_goals rfl

theorem falsy_search (env : Env) (st : St) (q : String) (v : Json)
    (hg : (q == "" || decide ((pyStrip q).length < 2)) = false)
    (hc : cacheGet st.cache (searchKey env.seed q) = some v)
    (hv : isTruthy v = false) :
    (parse_search_query env st q).2.providerCalls = st.providerCalls + 1 := by
  unfold parse_search_query
  dsimp only
  rw [hg]
  simp only [Bool.false_eq_true, if_false]
  rw [hc]
  simp only [cachedHit, hv, Bool.false_eq_true, if_false]
  repeat' split
  all_goals rfl

theorem falsy_interview (env : Env) (st : St) (role : String) (sk : List String) (lvl : String)
    (v : Json) (hg : (role == "") = false)
    (hc : cacheGet st.cache (interviewKey env.seed role sk lvl) = some v)
    (hv : isTruthy v = false) :
    (generate_interview_questions env st role sk lvl).2.providerCalls = st.providerCalls + 1 := by
  unfold generate_interview_questions
  dsimp only
  rw [hg]
  simp only [Bool.false_eq_true, if_false]
  rw [hc]
  simp only [cachedHit, hv, Bool.false_eq_true, if_false]
  repeat' split
  all_goals rfl

theorem falsy_salary (env : Env) (st : St) (role loc lvl : String) (v : Json)
    (hg : (role == "") = false)
    (hc : cacheGet st.cache (salaryKey env.seed role loc lvl) = some v)
    (hv : isTruthy v = false) :
    (get_salary_insights env st role loc lvl).2.providerCalls = st.providerCalls + 1 := by
  unfold get_salary_insights
  dsimp only
  rw [hg]
  simp only [Bool.false_eq_true, if_false]
  rw [hc]
  simp only [cachedHit, hv, Bool.false_eq_true, if_false]
  repeat' split
  all_goals rfl

/-! Usage-record counting per view. -/

theorem viewlogs_resume (env : Env) (st : St) (user : Nat) (data : List (String × Json)) :
    (parse_resume_view env st user data).2.usageLogs.length
      = st.usageLogs.length + (if (validateResumeParse data).isSome then 1 else 0) := by
  unfold parse_resume_view
  cases hv : validateResumeParse data with
  | none => simp
  | some r =>
    dsimp only
    split
    case _ parsed st1 heq =>
      have hu : st1.usageLogs = st.usageLogs := by
        have h2 := usage_resume env st r
        rw [heq] at h2
        exact h2
      simp [log_ai_usage, hu]
    case _ e st1 heq =>
      have hu : st1.usageLogs = st.usageLogs := by
        have h2 := usage_resume env st r
        rw [heq] at h2
        exact h2
      simp [log_ai_usage, hu]

theorem viewlogs_job_match (env : Env) (st : St) (user : Nat) (data : List (String × Json)) :
    (calculate_job_match_view env st user data).2.usageLogs.length
      = st.usageLogs.length +
        (match validateJobMatch data with
         | none => 0
         | some (jid, _) => if (env.jobs.find? (fun e => e.1 == jid)).isSome then 1 else 0) := by
  unfold calculate_job_match_view
  cases hv : validateJobMatch data with
  | none => simp
  | some pr =>
    obtain ⟨jid, profile⟩ := pr
    dsimp only
    cases hf : env.jobs.find? (fun e => e.1 == jid) with
    | none => simp [hf]
    | some jp =>
      dsimp only [Option.map]
      split
      next e heq => simp [log_ai_usage]
      next jreq heq =>
        split
        next e st1 heq2 =>
          have hu : st1.usageLogs = st.usageLogs := by
            have h2 := usage_job_match env st profile jreq
            rw [heq2] at h2
            exact h2
          simp [log_ai_usage, hu]
        next md st1 heq2 =>
          have hu : st1.usageLogs = st.usageLogs := by
            have h2 := usage_job_match env st profile jreq
            rw [heq2] at h2
            exact h2
          split
          next => simp [log_ai_usage, hu]
          next => simp [log_ai_usage, hu]

theorem viewlogs_job_desc (env : Env) (st : St) (user : Nat) (data : List (String × Json)) :
    (generate_job_description_view env st user data).2.usageLogs.length
      = st.usageLogs.length + (if (validateJobDescription data).isSome then 1 else 0) := by
  unfold generate_job_description_view
  cases hv : validateJobDescription data with
  | none => simp
  | some info =>
    dsimp only
    split
    case _ jd st1 heq =>
      have hu : st1.usageLogs = st.usageLogs := by
        have h2 := usage_job_desc env st info
        rw [heq] at h2
        exact h2
      simp [log_ai_usage, hu]
    case _ e st1 heq =>
      have hu : st1.usageLogs = st.usageLogs := by
        have h2 := usage_job_desc env st info
        rw [heq] at h2
        exact h2
      simp [log_ai_usage, hu]

theorem viewlogs_search (env : Env) (st : St) (user : Nat) (data : List (String × Json)) :
    (parse_search_query_view env st user data).2.usageLogs.length
      = st.usageLogs.length + (if (validateSearch data).isSome then 1 else 0) := by
  unfold parse_search_query_view
  cases hv : validateSearch data with
  | none => simp
  | some q =>
    dsimp only
    split
    case _ filters st1 heq =>
      have hu : st1.usageLogs = st.usageLogs := by
        have h2 := usage_search env st q
        rw [heq] at h2
        exact h2
      simp [log_ai_usage, hu]
    case _ e st1 heq =>
      have hu : st1.usageLogs = st.usageLogs := by
        have h2 := usage_search env st q
        rw [heq] at h2
        exact h2
      simp [log_ai_usage, hu]

theorem viewlogs_interview (env : Env) (st : St) (user : Nat) (data : List (String × Json)) :
    (generate_interview_questions_view env st user data).2.usageLogs.length
      = st.usageLogs.length + (if (validateInterview data).isSome then 1 else 0) := by
  unfold generate_interview_questions_view
  cases hv : validateInterview data with
  | none => simp
  | some tr =>
    obtain ⟨role, skOpt, lvlOpt⟩ := tr
    dsimp only
    split
    case _ qs st1 heq =>
      have hu : st1.usageLogs = st.usageLogs := by
        have h2 := usage_interview env st role (skOpt.getD []) (lvlOpt.getD "mid")
        rw [heq] at h2
        exact h2
      simp [log_ai_usage, hu]
    case _ e st1 heq =>
      have hu : st1.usageLogs = st.usageLogs := by
        have h2 := usage_interview env st role (skOpt.getD []) (lvlOpt.getD "mid")
        rw [heq] at h2
        exact h2
      simp [log_ai_usage, hu]

theorem viewlogs_salary (env : Env) (st : St) (user : Nat) (data : List (String × Json)) :
    (get_salary_insights_view env st user data).2.usageLogs.length
      = st.usageLogs.length + (if (validateSalary data).isSome then 1 else 0) := by
  unfold get_salary_insights_view
  cases hv : validateSalary data with
  | none => simp
  | some tr =>
    obtain ⟨role, locOpt, lvlOpt⟩ := tr
    dsimp only
    split
    case _ ins st1 heq =>
      have hu : st1.usageLogs = st.usageLogs := by
        have h2 := usage_salary env st role (locOpt.getD "Africa") (lvlOpt.getD "mid")
        rw [heq] at h2
        exact h2
      simp [log_ai_usage, hu]
    case _ e st1 heq =>
      have hu : st1.usageLogs = st.usageLogs := by
        have h2 := usage_salary env st role (locOpt.getD "Africa") (lvlOpt.getD "mid")
        rw [heq] at h2
        exact h2
      simp [log_ai_usage, hu]

/-! Glue lemmas for the claims about validation, defaulting and extraction. -/

/-- A query accepted by the serializer passes the service-level guard: the
serializer yields a trimmed string of length at least 2. -/
theorem search_guard_of_validated {data : List (String × Json)} {q : String}
    (hv : validateSearch data = some q) :
    (q == "" || decide ((pyStrip q).length < 2)) = false := by
  unfold validateSearch at hv
  cases hlf : lookupField data "query" with
  | none => rw [hlf] at hv; simp at hv
  | some v =>
    rw [hlf] at hv
    dsimp only [Option.bind] at hv
    unfold drfChar at hv
    split at hv
    next s =>
      dsimp only at hv
      split at hv
      · simp at hv
      · split at hv
        · simp at hv
        · next hneg1 hneg2 =>
          have hq : pyStrip s = q := Option.some.inj hv
          subst hq
          rw [pyStrip_idem]
          rw [Bool.not_eq_true] at hneg1 hneg2
          have h1 : (pyStrip s == "") = false := by simpa using hneg1
          rw [Bool.or_eq_false_iff] at hneg2
          rw [h1, hneg2.1]
          rfl
    next => simp at hv

/-- Inserting an absent key lands it where a subsequent key lookup finds it. -/
theorem find_objInsert_absent (fs : List (String × Json)) (k : String) (v : Json)
    (h : fs.any (fun e => e.1 == k) = false) :
    (objInsert fs k v).find? (fun e => e.1 == k) = some (k, v) := by
  induction fs with
  | nil => simp [objInsert, List.find?]
  | cons e rest ih =>
    obtain ⟨k', v'⟩ := e
    simp only [List.any_cons, Bool.or_eq_false_iff] at h
    simp only [objInsert, h.1, Bool.false_eq_true, if_false]
    rw [List.find?_cons_of_neg]
    · exact ih h.2
    · simp [h.1]

/-- Defaulting a key that is absent from an object appends it with the
default value. -/
theorem defaultField_absent (fs : List (String × Json)) (k : String) (dflt : Json)
    (h : fs.any (fun e => e.1 == k) = false) :
    defaultField k dflt (.obj fs) = .ok (.obj (objInsert fs k dflt)) := by
  unfold defaultField
  simp [pyIn, h, pySetItem]

/-- The matchScore defaulting step on an extracted object lacking the key. -/
theorem normalizeJobMatch_absent (fs : List (String × Json))
    (h : fs.any (fun e => e.1 == "matchScore") = false) :
    normalizeJobMatch (.obj fs) = .ok (.obj (objInsert fs "matchScore" (.int 50))) :=
  defaultField_absent fs "matchScore" (.int 50) h

/-- After the default is inserted, the returned dict carries matchScore 50. -/
theorem pyDictGet_objInsert_absent (fs : List (String × Json)) (k : String) (v : Json)
    (h : fs.any (fun e => e.1 == k) = false) :
    pyDictGet (.obj (objInsert fs k v)) k = .ok (some v) := by
  simp [pyDictGet, find_objInsert_absent fs k v h]

/-- A falsy skills entry on either side makes the job-match guard raise the
documented ValueError. -/
theorem jobMatchGuard_reject (c j : Json) (a b : Option Json)
    (hca : pyDictGet c "skills" = .ok a) (hjb : pyDictGet j "skills" = .ok b)
    (h : optTruthy a = false ∨ optTruthy b = false) :
    jobMatchGuard c j = .error (.valueError "Both candidate and job must have skills defined") := by
  unfold jobMatchGuard
  rw [hca]
  dsimp only
  cases hopt : optTruthy a with
  | false => simp [hopt]
  | true =>
    simp only [hopt, Bool.not_true, Bool.false_eq_true, if_false]
    rw [hjb]
    dsimp only
    have hb : optTruthy b = false := by
      rcases h with h | h
      · rw [hopt] at h; cases h
      · exact h
    simp [hb]

/-- The empty slice. -/
theorem pySlice_zero_zero (s : String) : pySlice s 0 0 = "" := by
  unfold pySlice
  dsimp only
  simp

/-- json.loads of the empty string fails. -/
theorem jsonLoads_empty : jsonLoads "" = none := rfl

/-! Concrete fixtures used by witnesses and counterexamples. -/

/-- The fresh state: empty cache, no puts, no calls, no rows. -/
def stEmpty : St := ⟨[], [], 0, [], [], []⟩

/-- A provider that answers every prompt with unparseable plain text. -/
def envPlain : Env := ⟨fun _ => some "x", 0, []⟩

/-- A resume text above the 50-character minimum. -/
def tResume : String :=
  "Experienced software engineer, ten years of cloud infrastructure work."

/-- A provider answering with a well-formed resume object, under seed 3. -/
def envResume : Env :=
  ⟨fun _ => some "\x7b\"name\":\"A\",\"email\":\"a@b.c\",\"skills\":[\"x\"]\x7d", 3, []⟩

/-- The parsed resume value envResume yields. -/
def vResume : Json :=
  .obj [("name", .str "A"), ("email", .str "a@b.c"), ("skills", .arr [.str "x"])]

/-- State after a first parse_resume call against envResume. -/
def stResume1 : St := (parse_resume envResume stEmpty tResume).2

/-- State after a first interview-questions call whose extraction failed. -/
def stInterview1 : St :=
  (generate_interview_questions envPlain stEmpty "Engineer" ["python"] "mid").2

/-- A valid job-match request payload. -/
def jobMatchData : List (String × Json) :=
  [("job_id", .int 7), ("candidate_profile", .obj [("skills", .arr [.str "python"])])]

/-- A candidate profile with skills. -/
def cProf : Json := .obj [("skills", .arr [.str "python"])]

/-- Job requirements with skills, as the service receives them. -/
def jReq : Json := .obj [("skills", .arr [.str "java"]), ("title", .str "Dev")]

/-- The job-match prompt for the fixture profiles. -/
def pMatch : String :=
  match jobMatchPrompt cProf jReq with
  | .ok s => s
  | .error _ => ""

/-- A provider answering job-match prompts with an object lacking matchScore. -/
def envMatch : Env := ⟨fun _ => some "\x7b\"skillsMatch\":[]\x7d", 0, []⟩

/-- A state whose cache holds an empty list (falsy) under three keys the
fixture invocations will look up. -/
def stFalsy : St :=
  ⟨[(resumeKey 0 tResume, .arr [], 3600),
    (interviewKey 0 "Engineer" ["python"] "mid", .arr [], 86400),
    (salaryKey 0 "Dev" "Accra" "mid", .arr [], 86400)], [], 0, [], [], []⟩

/-- A provider environment with seed 0 for the falsy-cache fixtures. -/
def envSeed0 : Env := ⟨fun _ => some "x", 0, []⟩

/-! Claim theorems. -/

/-- C1: the spec requires cache keys to be equal for field-for-field-equal
inputs and stable across process restarts, independent of per-process hash
seeding. The code derives keys from Python hash() of strings and of str() of
insertion-ordered dicts, so the key differs across two processes with
different hash salts (first conjunct), and two dicts that are equal as
mappings but inserted in different orders serialize differently (second
conjunct) and hence get different job-match keys within one process (third
conjunct). This theorem evaluates the key derivation at those failing
inputs. -/
theorem cacheKey_process_seed_dependent :
    resumeKey 0 tResume ≠ resumeKey 1 tResume ∧
    pyStr (Json.obj [("skills", .arr [.str "python"]), ("yearsExperience", .int 5)])
      ≠ pyStr (Json.obj [("yearsExperience", .int 5), ("skills", .arr [.str "python"])]) ∧
    jobMatchKey 0 (Json.obj [("skills", .arr [.str "python"]), ("yearsExperience", .int 5)]) jReq
      ≠ jobMatchKey 0 (Json.obj [("yearsExperience", .int 5), ("skills", .arr [.str "python"])]) jReq := by
  refine ⟨?_, ?_, ?_⟩ <;> decide

/-- C2 counterexample: a search-parse store uses CACHE_TIMEOUT_LONG, not the
short ttl the claim assigns to search-parse results. -/
theorem searchParse_stores_long_ttl :
    (parse_search_query envPlain stEmpty "python developer").2.puts.map (fun e => e.2.2)
      = [CACHE_TIMEOUT_LONG] ∧
    CACHE_TIMEOUT_LONG ≠ CACHE_TIMEOUT_SHORT := by
  exact ⟨rfl, by decide⟩

/-- C2 (amended): resume-parse and job-match store with the short ttl;
job-description, search-parse, interview-questions and salary-insight store
with the long ttl. -/
theorem ttl_classes_by_operation :
    (∀ (env : Env) (st : St) (t : String),
        PutsOnly st (parse_resume env st t).2 CACHE_TIMEOUT_SHORT) ∧
    (∀ (env : Env) (st : St) (c j : Json),
        PutsOnly st (calculate_job_match env st c j).2 CACHE_TIMEOUT_SHORT) ∧
    (∀ (env : Env) (st : St) (info : Json),
        PutsOnly st (generate_job_description env st info).2 CACHE_TIMEOUT_LONG) ∧
    (∀ (env : Env) (st : St) (q : String),
        PutsOnly st (parse_search_query env st q).2 CACHE_TIMEOUT_LONG) ∧
    (∀ (env : Env) (st : St) (role : String) (sk : List String) (lvl : String),
        PutsOnly st (generate_interview_questions env st role sk lvl).2 CACHE_TIMEOUT_LONG) ∧
    (∀ (env : Env) (st : St) (role loc lvl : String),
        PutsOnly st (get_salary_insights env st role loc lvl).2 CACHE_TIMEOUT_LONG) :=
  ⟨puts_resume, puts_job_match, puts_job_desc, puts_search, puts_interview, puts_salary⟩

/-- C2 witness: the ttl-class theorem evaluated on concrete search-parse and
resume-parse runs. -/
theorem ttl_classes_by_operation_witness :
    PutsOnly stEmpty (parse_search_query envPlain stEmpty "python developer").2
      CACHE_TIMEOUT_LONG ∧
    PutsOnly stEmpty (parse_resume envResume stEmpty tResume).2 CACHE_TIMEOUT_SHORT :=
  ⟨ttl_classes_by_operation.2.2.2.1 envPlain stEmpty "python developer",
   ttl_classes_by_operation.1 envResume stEmpty tResume⟩

/-- C3 counterexample: interview-questions caches its empty-list fallback;
the falsy cached value is not served, so a second call with identical inputs
inside the ttl window contacts the provider again (provider calls go from 1
to 2), contradicting the zero-provider-calls claim. -/
theorem secondCall_contacts_provider_after_falsy_result :
    generate_interview_questions envPlain stEmpty "Engineer" ["python"] "mid"
      = (.ok (Json.arr []), stInterview1) ∧
    stInterview1.providerCalls = 1 ∧
    cacheGet stInterview1.cache (interviewKey 0 "Engineer" ["python"] "mid")
      = some (Json.arr []) ∧
    (generate_interview_questions envPlain stInterview1 "Engineer" ["python"] "mid").2.providerCalls
      = 2 :=
  ⟨rfl, rfl, rfl, rfl⟩

/-- C3 (amended): for every operation, when a call returns a truthy (non-empty)
result, a second call with identical inputs within the ttl window returns the
bit-identical result and leaves the state untouched — in particular it makes
zero provider calls. A falsy first result (e.g. the interview-questions empty
list) is re-generated instead. -/
theorem cached_idempotence_truthy :
    (∀ (env : Env) (st st' : St) (t : String) (v : Json),
        parse_resume env st t = (.ok v, st') → isTruthy v = true →
        parse_resume env st' t = (.ok v, st')) ∧
    (∀ (env : Env) (st st' : St) (c j v : Json),
        calculate_job_match env st c j = (.ok v, st') → isTruthy v = true →
        calculate_job_match env st' c j = (.ok v, st')) ∧
    (∀ (env : Env) (st st' : St) (info v : Json),
        generate_job_description env st info = (.ok v, st') → isTruthy v = true →
        generate_job_description env st' info = (.ok v, st')) ∧
    (∀ (env : Env) (st st' : St) (q : String) (v : Json),
        parse_search_query env st q = (.ok v, st') → isTruthy v = true →
        parse_search_query env st' q = (.ok v, st')) ∧
    (∀ (env : Env) (st st' : St) (role : String) (sk : List String) (lvl : String) (v : Json),
        generate_interview_questions env st role sk lvl = (.ok v, st') → isTruthy v = true →
        generate_interview_questions env st' role sk lvl = (.ok v, st')) ∧
    (∀ (env : Env) (st st' : St) (role loc lvl : String) (v : Json),
        get_salary_insights env st role loc lvl = (.ok v, st') → isTruthy v = true →
        get_salary_insights env st' role loc lvl = (.ok v, st')) :=
  ⟨fun _ _ _ _ _ h htr => idem_resume h htr,
   fun _ _ _ _ _ _ h htr => idem_job_match h htr,
   fun _ _ _ _ _ h htr => idem_job_desc h htr,
   fun _ _ _ _ _ h htr => idem_search h htr,
   fun _ _ _ _ _ _ _ h htr => idem_interview h htr,
   fun _ _ _ _ _ _ _ h htr => idem_salary h htr⟩

/-- C3 witness: the idempotence theorem applied to a concrete first call whose
truthy result was cached; the second call returns the identical pair. -/
theorem cached_idempotence_truthy_witness :
    parse_resume envResume stResume1 tResume = (.ok vResume, stResume1) :=
  cached_idempotence_truthy.1 envResume stEmpty stResume1 tResume vResume rfl rfl

/-- C6 counterexample: when search-parse extraction fails, the locally
fabricated fallback filter object is itself written to the cache, so the
cache does not hold only provider-derived validated results. -/
theorem cache_stores_fallback_value :
    extract_json "x" = none ∧
    (parse_search_query envPlain stEmpty "python developer").2.puts
      = [(searchKey 0 "python developer", fallbackFilters "python developer",
          CACHE_TIMEOUT_LONG)] ∧
    (parse_search_query envPlain stEmpty "python developer").1
      = .ok (fallbackFilters "python developer") :=
  ⟨rfl, rfl, rfl⟩

/-- C6 (amended): every value a handler writes to the cache is exactly the
value it returns as its successful result — a successfully extracted and
normalized result or, for search-parse and interview-questions, the defined
local fallback; raw provider text is never stored. -/
theorem cache_puts_are_returned_results :
    (∀ (env : Env) (st : St) (t : String), PutsFromResult st (parse_resume env st t)) ∧
    (∀ (env : Env) (st : St) (c j : Json), PutsFromResult st (calculate_job_match env st c j)) ∧
    (∀ (env : Env) (st : St) (info : Json),
        PutsFromResult st (generate_job_description env st info)) ∧
    (∀ (env : Env) (st : St) (q : String), PutsFromResult st (parse_search_query env st q)) ∧
    (∀ (env : Env) (st : St) (role : String) (sk : List String) (lvl : String),
        PutsFromResult st (generate_interview_questions env st role sk lvl)) ∧
    (∀ (env : Env) (st : St) (role loc lvl : String),
        PutsFromResult st (get_salary_insights env st role loc lvl)) :=
  ⟨putsFrom_resume, putsFrom_job_match, putsFrom_job_desc, putsFrom_search,
   putsFrom_interview, putsFrom_salary⟩

/-- C6 witness: the puts-are-results theorem evaluated on a concrete
search-parse run that cached its fallback. -/
theorem cache_puts_are_returned_results_witness :
    PutsFromResult stEmpty (parse_search_query envPlain stEmpty "python developer") :=
  cache_puts_are_returned_results.2.2.2.1 envPlain stEmpty "python developer"

/-- C9: a stored falsy value (empty dict or empty list) is treated as a cache
miss by every handler: the guard tests truthiness, so the entry is not served
and the full generate path runs, contacting the provider exactly once. -/
theorem falsy_cache_entry_treated_as_miss :
    (∀ (env : Env) (st : St) (t : String) (v : Json),
        (t == "" || decide ((pyStrip t).length < 50)) = false →
        cacheGet st.cache (resumeKey env.seed t) = some v → isTruthy v = false →
        (parse_resume env st t).2.providerCalls = st.providerCalls + 1) ∧
    (∀ (env : Env) (st : St) (c j v : Json) (p : String),
        jobMatchGuard c j = .ok () →
        cacheGet st.cache (jobMatchKey env.seed c j) = some v → isTruthy v = false →
        jobMatchPrompt c j = .ok p →
        (calculate_job_match env st c j).2.providerCalls = st.providerCalls + 1) ∧
    (∀ (env : Env) (st : St) (info : Json) (tv : Option Json) (v : Json) (p : String),
        pyDictGet info "title" = .ok tv → optTruthy tv = true →
        cacheGet st.cache (jobDescKey env.seed info) = some v → isTruthy v = false →
        jobDescPrompt info = .ok p →
        (generate_job_description env st info).2.providerCalls = st.providerCalls + 1) ∧
    (∀ (env : Env) (st : St) (q : String) (v : Json),
        (q == "" || decide ((pyStrip q).length < 2)) = false →
        cacheGet st.cache (searchKey env.seed q) = some v → isTruthy v = false →
        (parse_search_query env st q).2.providerCalls = st.providerCalls + 1) ∧
    (∀ (env : Env) (st : St) (role : String) (sk : List String) (lvl : String) (v : Json),
        (role == "") = false →
        cacheGet st.cache (interviewKey env.seed role sk lvl) = some v → isTruthy v = false →
        (generate_interview_questions env st role sk lvl).2.providerCalls
          = st.providerCalls + 1) ∧
    (∀ (env : Env) (st : St) (role loc lvl : String) (v : Json),
        (role == "") = false →
        cacheGet st.cache (salaryKey env.seed role loc lvl) = some v → isTruthy v = false →
        (get_salary_insights env st role loc lvl).2.providerCalls = st.providerCalls + 1) :=
  ⟨fun env st t v hg hc hv => falsy_resume env st t v hg hc hv,
   fun env st c j v p hg hc hv hp => falsy_job_match env st c j v p hg hc hv hp,
   fun env st info tv v p ht htt hc hv hp => falsy_job_desc env st info tv v p ht htt hc hv hp,
   fun env st q v hg hc hv => falsy_search env st q v hg hc hv,
   fun env st role sk lvl v hg hc hv => falsy_interview env st role sk lvl v hg hc hv,
   fun env st role loc lvl v hg hc hv => falsy_salary env st role loc lvl v hg hc hv⟩

/-- C9 witness: the falsy-entry theorem applied to concrete states whose
cache holds an empty list under the looked-up key, for the resume, interview
and salary handlers. -/
theorem falsy_cache_entry_treated_as_miss_witness :
    (parse_resume envSeed0 stFalsy tResume).2.providerCalls = stFalsy.providerCalls + 1 ∧
    (generate_interview_questions envSeed0 stFalsy "Engineer" ["python"] "mid").2.providerCalls
      = stFalsy.providerCalls + 1 ∧
    (get_salary_insights envSeed0 stFalsy "Dev" "Accra" "mid").2.providerCalls
      = stFalsy.providerCalls + 1 :=
  ⟨falsy_cache_entry_treated_as_miss.1 envSeed0 stFalsy tResume (.arr []) rfl rfl rfl,
   falsy_cache_entry_treated_as_miss.2.2.2.2.1 envSeed0 stFalsy "Engineer" ["python"] "mid"
     (.arr []) rfl rfl rfl,
   falsy_cache_entry_treated_as_miss.2.2.2.2.2 envSeed0 stFalsy "Dev" "Accra" "mid"
     (.arr []) rfl rfl rfl⟩

/-- Service-level shape of the search-parse miss path with failed extraction:
the fallback is returned successfully and cached with the long ttl. -/
theorem search_miss_fallback (env : Env) (st : St) (q raw : String)
    (hg : (q == "" || decide ((pyStrip q).length < 2)) = false)
    (hmiss : cacheGet st.cache (searchKey env.seed q) = none)
    (hraw : env.provider (searchPrompt q) = some raw)
    (hex : extract_json raw = none) :
    parse_search_query env st q
      = (.ok (fallbackFilters q),
         cacheSetSt { st with providerCalls := st.providerCalls + 1 }
           (searchKey env.seed q) (fallbackFilters q) CACHE_TIMEOUT_LONG) := by
  unfold parse_search_query
  dsimp only
  rw [hg]
  simp only [Bool.false_eq_true, if_false]
  rw [hmiss]
  simp only [cachedHit]
  rw [hraw]
  dsimp only
  rw [hex]

/-- C4 counterexample: a job-match request that passes the serializer but
names a missing job returns 404 with no UsageRecord written, refuting
one-record-per-invocation. -/
theorem jobMatch_notFound_writes_no_record :
    validateJobMatch jobMatchData = some (7, .obj [("skills", .arr [.str "python"])]) ∧
    (calculate_job_match_view envPlain stEmpty 9 jobMatchData).1.status = 404 ∧
    (calculate_job_match_view envPlain stEmpty 9 jobMatchData).2.usageLogs = [] :=
  ⟨rfl, rfl, rfl⟩

/-- C4 (amended): an invocation that passes serializer validation — and, for
job-match, whose referenced job exists — writes exactly one UsageRecord
before returning, whatever the outcome; serializer-rejected requests and
job-match requests whose job is missing write none. -/
theorem usage_record_counts :
    (∀ (env : Env) (st : St) (user : Nat) (data : List (String × Json)),
        (parse_resume_view env st user data).2.usageLogs.length
          = st.usageLogs.length + (if (validateResumeParse data).isSome then 1 else 0)) ∧
    (∀ (env : Env) (st : St) (user : Nat) (data : List (String × Json)),
        (calculate_job_match_view env st user data).2.usageLogs.length
          = st.usageLogs.length +
            (match validateJobMatch data with
             | none => 0
             | some (jid, _) => if (env.jobs.find? (fun e => e.1 == jid)).isSome then 1 else 0)) ∧
    (∀ (env : Env) (st : St) (user : Nat) (data : List (String × Json)),
        (generate_job_description_view env st user data).2.usageLogs.length
          = st.usageLogs.length + (if (validateJobDescription data).isSome then 1 else 0)) ∧
    (∀ (env : Env) (st : St) (user : Nat) (data : List (String × Json)),
        (parse_search_query_view env st user data).2.usageLogs.length
          = st.usageLogs.length + (if (validateSearch data).isSome then 1 else 0)) ∧
    (∀ (env : Env) (st : St) (user : Nat) (data : List (String × Json)),
        (generate_interview_questions_view env st user data).2.usageLogs.length
          = st.usageLogs.length + (if (validateInterview data).isSome then 1 else 0)) ∧
    (∀ (env : Env) (st : St) (user : Nat) (data : List (String × Json)),
        (get_salary_insights_view env st user data).2.usageLogs.length
          = st.usageLogs.length + (if (validateSalary data).isSome then 1 else 0)) :=
  ⟨viewlogs_resume, viewlogs_job_match, viewlogs_job_desc, viewlogs_search,
   viewlogs_interview, viewlogs_salary⟩

/-- C4 witness: the record-count theorem evaluated on a concrete search-parse
invocation (one record) and on the job-match 404 fixture (zero records). -/
theorem usage_record_counts_witness :
    (parse_search_query_view envPlain stEmpty 4 [("query", .str "python developer")]).2.usageLogs.length
      = stEmpty.usageLogs.length
        + (if (validateSearch [("query", .str "python developer")]).isSome then 1 else 0) ∧
    (calculate_job_match_view envPlain stEmpty 9 jobMatchData).2.usageLogs.length
      = stEmpty.usageLogs.length +
        (match validateJobMatch jobMatchData with
         | none => 0
         | some (jid, _) => if (envPlain.jobs.find? (fun e => e.1 == jid)).isSome then 1 else 0) :=
  ⟨usage_record_counts.2.2.2.1 envPlain stEmpty 4 [("query", .str "python developer")],
   usage_record_counts.2.1 envPlain stEmpty 9 jobMatchData⟩

/-- C5 counterexample: in the fallback filter object the skills field is the
empty list, not null, so not every non-keyword field of the degraded result
is null. -/
theorem fallback_skills_not_null :
    (parse_search_query envPlain stEmpty "python developer lagos").1
      = .ok (fallbackFilters "python developer lagos") ∧
    pyDictGet (fallbackFilters "python developer lagos") "skills" = .ok (some (.arr [])) ∧
    Json.arr [] ≠ Json.null :=
  ⟨rfl, rfl, fun h => Json.noConfusion h⟩

/-- C5 (amended): a search-parse invocation whose provider output fails
extraction returns 200 with the fallback filter object — keywords are the
whitespace-split tokens of the query, location, jobType, experienceLevel,
salaryMin and salaryMax are null, and skills is the empty list — and appends
exactly one successful UsageRecord. -/
theorem search_fallback_shape (env : Env) (st : St) (user : Nat)
    (data : List (String × Json)) (q raw : String)
    (hv : validateSearch data = some q)
    (hmiss : cacheGet st.cache (searchKey env.seed q) = none)
    (hraw : env.provider (searchPrompt q) = some raw)
    (hex : extract_json raw = none) :
    parse_search_query_view env st user data
      = (⟨200, fallbackFilters q⟩,
         log_ai_usage
           (cacheSetSt { st with providerCalls := st.providerCalls + 1 }
             (searchKey env.seed q) (fallbackFilters q) CACHE_TIMEOUT_LONG)
           user "search_parse" true none) ∧
    pyDictGet (fallbackFilters q) "keywords" = .ok (some (.arr ((pySplit q).map .str))) ∧
    pyDictGet (fallbackFilters q) "location" = .ok (some .null) ∧
    pyDictGet (fallbackFilters q) "jobType" = .ok (some .null) ∧
    pyDictGet (fallbackFilters q) "experienceLevel" = .ok (some .null) ∧
    pyDictGet (fallbackFilters q) "salaryMin" = .ok (some .null) ∧
    pyDictGet (fallbackFilters q) "salaryMax" = .ok (some .null) ∧
    pyDictGet (fallbackFilters q) "skills" = .ok (some (.arr [])) := by
  have hg := search_guard_of_validated hv
  have hsvc := search_miss_fallback env st q raw hg hmiss hraw hex
  refine ⟨?_, rfl, rfl, rfl, rfl, rfl, rfl, rfl⟩
  unfold parse_search_query_view
  rw [hv]
  dsimp only
  rw [hsvc]

/-- C5 witness: the fallback-shape theorem applied to a concrete request with
an unparseable provider answer. -/
theorem search_fallback_shape_witness :
    parse_search_query_view envPlain stEmpty 4 [("query", .str "python developer lagos")]
      = (⟨200, fallbackFilters "python developer lagos"⟩,
         log_ai_usage
           (cacheSetSt { stEmpty with providerCalls := stEmpty.providerCalls + 1 }
             (searchKey envPlain.seed "python developer lagos")
             (fallbackFilters "python developer lagos") CACHE_TIMEOUT_LONG)
           4 "search_parse" true none) :=
  (search_fallback_shape envPlain stEmpty 4 [("query", .str "python developer lagos")]
    "python developer lagos" "x" rfl rfl rfl rfl).1

/-- C7 counterexample: for input whose first non-whitespace character is the
object-open marker but which begins with literal whitespace (and has no
fence), the extractor performs no truncation and fails, although truncating
after the last close marker would have produced the object — the claim's
first-non-whitespace reading is refuted. -/
theorem leading_whitespace_object_not_truncated :
    pyStartsWith (pyStrip "  \x7b\"a\":1\x7d some commentary") "\x7b" = true ∧
    jsonLoads (pySlice "  \x7b\"a\":1\x7d some commentary" 0
        (pyRFindChar "  \x7b\"a\":1\x7d some commentary" braceClose + 1))
      = some (.obj [("a", .int 1)]) ∧
    extract_json "  \x7b\"a\":1\x7d some commentary" = none :=
  ⟨rfl, rfl, rfl⟩

/-- C7 (amended): the truncation step fires when the (fence-stripped) text
literally starts with the open marker — the code tests startswith, not the
first non-whitespace character. Under that reading the property holds: with
no fence present, a text starting with the object (resp. array) marker is
truncated after its last close marker before parsing, and the claim's
concrete instance extracts the object from trailing commentary. -/
theorem extract_truncation_startswith :
    (∀ t : String, pyContains t "```json" = false → pyContains t "```" = false →
        pyStartsWith t "\x7b" = true →
        extract_json t = jsonLoads (pySlice t 0 (pyRFindChar t braceClose + 1))) ∧
    (∀ t : String, pyContains t "```json" = false → pyContains t "```" = false →
        pyStartsWith t "\x7b" = false → pyStartsWith t "[" = true →
        extract_json t = jsonLoads (pySlice t 0 (pyRFindChar t ']' + 1))) ∧
    extract_json "\x7b\"a\":1\x7d some commentary" = some (.obj [("a", .int 1)]) := by
  refine ⟨?_, ?_, rfl⟩
  · intro t h1 h2 h3
    unfold extract_json
    dsimp only
    rw [h1, h2]
    simp only [Bool.false_eq_true, if_false]
    rw [h3]
    simp only [if_true]
  · intro t h1 h2 h3 h4
    unfold extract_json
    dsimp only
    rw [h1, h2]
    simp only [Bool.false_eq_true, if_false]
    rw [h3, h4]
    simp only [Bool.false_eq_true, if_false, if_true]

/-- C7 witness: the truncation equations applied at concrete object and array
inputs with trailing prose. -/
theorem extract_truncation_startswith_witness :
    extract_json "\x7b\"a\":1\x7d trailing"
      = jsonLoads (pySlice "\x7b\"a\":1\x7d trailing" 0
          (pyRFindChar "\x7b\"a\":1\x7d trailing" braceClose + 1)) ∧
    extract_json "[1, 2] junk"
      = jsonLoads (pySlice "[1, 2] junk" 0 (pyRFindChar "[1, 2] junk" ']' + 1)) :=
  ⟨extract_truncation_startswith.1 "\x7b\"a\":1\x7d trailing" rfl rfl rfl,
   extract_truncation_startswith.2.1 "[1, 2] junk" rfl rfl rfl rfl⟩

/-- C8 counterexample: a provider response of an empty object parses
successfully (extraction yields the empty dict) and omits matchScore, yet
calculate_job_match raises the could-not-calculate error instead of
returning a result with matchScore 50 — the `if not match_data:` guard
treats the falsy parsed value as an extraction failure,
gemini_service.py lines 216-217. -/
theorem jobMatch_empty_object_extraction_raises :
    extract_json "\x7b\x7d" = some (.obj []) ∧
    pyIn "matchScore" (.obj []) = .ok false ∧
    calculate_job_match ⟨fun _ => some "\x7b\x7d", 0, []⟩ stEmpty cProf jReq
      = (.error (.genericError "Could not calculate job match from AI response"),
         { stEmpty with providerCalls := stEmpty.providerCalls + 1 }) :=
  ⟨rfl, rfl, rfl⟩

/-- C8 (amended): a job-match call with a missing or empty skills list on
either side raises the documented ValueError with the state untouched (the
provider is never contacted); and a call whose provider response parses
successfully to a non-empty object that omits matchScore returns a result
carrying the neutral default 50. A response parsing to a falsy value (such
as the empty object) is instead treated as an extraction failure and
raised, and a truthy non-dict value fails at the defaulting step. -/
theorem jobMatch_guard_and_default :
    (∀ (env : Env) (st : St) (c j : Json) (a b : Option Json),
        pyDictGet c "skills" = .ok a → pyDictGet j "skills" = .ok b →
        (optTruthy a = false ∨ optTruthy b = false) →
        calculate_job_match env st c j
          = (.error (.valueError "Both candidate and job must have skills defined"), st)) ∧
    (∀ (env : Env) (st : St) (c j : Json) (p raw : String) (fs : List (String × Json)),
        jobMatchGuard c j = .ok () →
        cachedHit (cacheGet st.cache (jobMatchKey env.seed c j)) = none →
        jobMatchPrompt c j = .ok p →
        env.provider p = some raw →
        extract_json raw = some (.obj fs) →
        fs.isEmpty = false →
        fs.any (fun e => e.1 == "matchScore") = false →
        calculate_job_match env st c j
          = (.ok (.obj (objInsert fs "matchScore" (.int 50))),
             cacheSetSt { st with providerCalls := st.providerCalls + 1 }
               (jobMatchKey env.seed c j) (.obj (objInsert fs "matchScore" (.int 50)))
               CACHE_TIMEOUT_SHORT) ∧
        pyDictGet (.obj (objInsert fs "matchScore" (.int 50))) "matchScore"
          = .ok (some (.int 50))) := by
  constructor
  · intro env st c j a b hca hjb h
    have hgm := jobMatchGuard_reject c j a b hca hjb h
    unfold calculate_job_match
    rw [hgm]
  · intro env st c j p raw fs hguard hhit hp hraw hex hne hns
    refine ⟨?_, pyDictGet_objInsert_absent fs "matchScore" (.int 50) hns⟩
    unfold calculate_job_match
    dsimp only
    rw [hguard]
    dsimp only
    rw [hhit]
    rw [hp]
    dsimp only
    rw [hraw]
    dsimp only
    rw [hex]
    dsimp only
    simp only [isTruthy, hne, Bool.not_false, Bool.not_true, Bool.false_eq_true, if_false]
    rw [normalizeJobMatch_absent fs hns]

/-- C8 witness: both parts applied at concrete inputs — a candidate without
skills is rejected with the state unchanged, and a provider object lacking
matchScore comes back with matchScore 50. -/
theorem jobMatch_guard_and_default_witness :
    calculate_job_match envMatch stEmpty (.obj []) jReq
      = (.error (.valueError "Both candidate and job must have skills defined"), stEmpty) ∧
    calculate_job_match envMatch stEmpty cProf jReq
      = (.ok (.obj (objInsert [("skillsMatch", .arr [])] "matchScore" (.int 50))),
         cacheSetSt { stEmpty with providerCalls := stEmpty.providerCalls + 1 }
           (jobMatchKey envMatch.seed cProf jReq)
           (.obj (objInsert [("skillsMatch", .arr [])] "matchScore" (.int 50)))
           CACHE_TIMEOUT_SHORT) ∧
    pyDictGet (.obj (objInsert [("skillsMatch", .arr [])] "matchScore" (.int 50))) "matchScore"
      = .ok (some (.int 50)) := by
  refine ⟨?_, ?_, ?_⟩
  · exact jobMatch_guard_and_default.1 envMatch stEmpty (.obj []) jReq none
      (some (.arr [.str "java"])) rfl rfl (.inl rfl)
  · exact (jobMatch_guard_and_default.2 envMatch stEmpty cProf jReq pMatch
      "\x7b\"skillsMatch\":[]\x7d" [("skillsMatch", .arr [])] rfl rfl rfl rfl rfl rfl rfl).1
  · exact (jobMatch_guard_and_default.2 envMatch stEmpty cProf jReq pMatch
      "\x7b\"skillsMatch\":[]\x7d" [("skillsMatch", .arr [])] rfl rfl rfl rfl rfl rfl rfl).2

/-- C10 counterexample: an input with an opening fence and no closing fence
whose payload is followed by a trailing space is extracted successfully —
the dropped final character is the space, not part of the payload — so the
extractor does not fail on every unterminated-fence input with a valid
payload. -/
theorem unterminated_fence_trailing_space_succeeds :
    pyContains "```json\x7b\"a\":1\x7d " "```json" = true ∧
    pyFind "```json\x7b\"a\":1\x7d " "```" 7 = -1 ∧
    jsonLoads "\x7b\"a\":1\x7d" = some (.obj [("a", .int 1)]) ∧
    extract_json "```json\x7b\"a\":1\x7d " = some (.obj [("a", .int 1)]) :=
  ⟨rfl, rfl, rfl, rfl⟩

/-- C10 (amended): when the fence opens at position 0, has no closing fence,
and the end-of-slice drop removes the candidate's only close marker (the
stripped remainder starts with the object marker but retains no close
marker), the later truncation empties the candidate and extraction returns
none — even though the text after the fence was valid data; a trailing
character after the payload can absorb the drop and let extraction succeed. -/
theorem unterminated_fence_drops_payload_char (t : String)
    (h0 : pyFind t "```json" 0 = 0)
    (h1 : pyFind t "```" 7 = -1)
    (h2 : pyStartsWith (pyStrip (pySlice t 7 (-1))) "\x7b" = true)
    (h3 : pyRFindChar (pyStrip (pySlice t 7 (-1))) braceClose = -1) :
    extract_json t = none := by
  have hc : pyContains t "```json" = true := by
    unfold pyContains
    rw [h0]
    rfl
  unfold extract_json
  dsimp only
  rw [hc]
  simp only [if_true]
  rw [h0]
  norm_num
  simp only [show (7 : Int).toNat = 7 from rfl]
  rw [h1, h2]
  simp only [if_true]
  rw [h3]
  norm_num
  rw [pySlice_zero_zero]
  exact jsonLoads_empty

/-- C10 witness: the unterminated-fence theorem applied to a concrete input
whose fenced payload is valid JSON ending at the final close brace. -/
theorem unterminated_fence_drops_payload_char_witness :
    jsonLoads "\x7b\"a\":1\x7d" = some (.obj [("a", .int 1)]) ∧
    extract_json "```json\n\x7b\"a\":1\x7d" = none :=
  ⟨rfl, unterminated_fence_drops_payload_char "```json\n\x7b\"a\":1\x7d" rfl rfl rfl rfl⟩
